import Mathlib

set_option maxRecDepth 8000

/-!
Verification of the vx220-dashboard telemetry core.

This file shallowly embeds the decoding and control logic of the
repository (src/esp32.rs, src/racebox/parser.rs, src/racebox/ble.rs,
src/telemetry.rs, src/main.rs) into Lean and proves the specified
properties about it.  Bytes are modelled as `Nat` (with explicit
`% 2 ^ w` where Rust wrapping semantics matter), fallible code returns
`Except`/`Option`, and the stateful read loops are modelled as explicit
step functions over environments that supply the I/O results.
-/

/-! ## ESP32 serial frame decoding (src/esp32.rs) -/

/-- Status flags from the ESP32 (src/telemetry.rs, `StatusFlags`). -/
structure StatusFlags where
  mil : Bool
  abs_warning : Bool
  airbag_warning : Bool
  left_turn : Bool
  right_turn : Bool
  high_beam : Bool
  parking_brake : Bool
  reserved : Bool

/-- `StatusFlags::from_byte`: expand a byte into the 8 flags by bitmask. -/
def StatusFlags.from_byte (byte : Nat) : StatusFlags where
  mil := byte &&& 0x01 ≠ 0
  abs_warning := byte &&& 0x02 ≠ 0
  airbag_warning := byte &&& 0x04 ≠ 0
  left_turn := byte &&& 0x08 ≠ 0
  right_turn := byte &&& 0x10 ≠ 0
  high_beam := byte &&& 0x20 ≠ 0
  parking_brake := byte &&& 0x40 ≠ 0
  reserved := byte &&& 0x80 ≠ 0

/-- `ESP32Data` (src/telemetry.rs): a record of independently optional
fields.  `u16` fields are `Nat`, `i16` fields are `Int`; the two
four-element tyre arrays are functions from `Fin 4`. -/
structure ESP32Data where
  fuel_level : Option Nat
  oil_pressure : Option Nat
  boost_pressure : Option Nat
  rpm : Option Nat
  speed : Option Nat
  status_flags : Option StatusFlags
  steering_angle : Option Int
  brake_pressure : Option Nat
  throttle_position : Option Nat
  gear_position : Option Nat
  tyre_pressures : Fin 4 → Option Nat
  tyre_temps : Fin 4 → Option Int

/-- `ESP32Data::default()`: all fields unset. -/
def ESP32Data.default : ESP32Data where
  fuel_level := none
  oil_pressure := none
  boost_pressure := none
  rpm := none
  speed := none
  status_flags := none
  steering_angle := none
  brake_pressure := none
  throttle_position := none
  gear_position := none
  tyre_pressures := fun _ => none
  tyre_temps := fun _ => none

/-- `u16::from_be_bytes([a, b])` for bytes `a b < 256`. -/
def u16be (a b : Nat) : Nat := 256 * a + b

/-- Reinterpret a 16-bit unsigned value as `i16` (two's complement). -/
def toI16 (n : Nat) : Int := if n < 32768 then (n : Int) else (n : Int) - 65536

/-- One round of the CRC16-CCITT shift loop body (src/esp32.rs lines
121-127); `crc` is a `u16`, so the left shift wraps modulo `2 ^ 16`. -/
def crcShift (c : Nat) : Nat :=
  if c &&& 0x8000 ≠ 0 then ((c * 2) % 65536) ^^^ 0x1021
  else (c * 2) % 65536

/-- `n` iterations of `crcShift` (the `for _ in 0..8` loop). -/
def crcRounds : Nat → Nat → Nat
  | 0, c => c
  | n + 1, c => crcRounds n (crcShift c)

/-- Process one message byte: `crc ^= (b as u16) << 8` followed by the
eight shift rounds. -/
def crcStep (c b : Nat) : Nat := crcRounds 8 (c ^^^ (b <<< 8))

/-- CRC16 (CCITT variant, polynomial 0x1021, initial value 0x0000,
MSB-first) over a byte sequence, as computed in `parse_frame`. -/
def crc16 (l : List Nat) : Nat := l.foldl crcStep 0

/-- `let tlv_end = 3 + (len - 1);` where `len = frame[1] as usize`.
In release mode the `usize` subtraction wraps modulo `2 ^ 64`, so for
`len = 0` this evaluates to `2`. -/
def tlvEnd (frame : List Nat) : Nat :=
  (3 + ((frame.getD 1 0 + (18446744073709551616 - 1)) % 18446744073709551616))
    % 18446744073709551616

/-- One arm of the TLV `match id` statement: set the field selected by
`id` from the value bytes starting at `pos`; unknown tags change
nothing. -/
def applyTag (frame : List Nat) (pos id : Nat) (d : ESP32Data) : ESP32Data :=
  if id = 0x01 then
    { d with fuel_level := some (u16be (frame.getD pos 0) (frame.getD (pos + 1) 0)) }
  else if id = 0x02 then
    { d with oil_pressure := some (u16be (frame.getD pos 0) (frame.getD (pos + 1) 0)) }
  else if id = 0x03 then
    { d with boost_pressure := some (u16be (frame.getD pos 0) (frame.getD (pos + 1) 0)) }
  else if id = 0x04 then
    { d with rpm := some (u16be (frame.getD pos 0) (frame.getD (pos + 1) 0)) }
  else if id = 0x05 then
    { d with speed := some (u16be (frame.getD pos 0) (frame.getD (pos + 1) 0)) }
  else if id = 0x06 then
    { d with status_flags := some (StatusFlags.from_byte (frame.getD pos 0)) }
  else if id = 0x07 then
    { d with steering_angle := some (toI16 (u16be (frame.getD pos 0) (frame.getD (pos + 1) 0))) }
  else if id = 0x08 then
    { d with brake_pressure := some (u16be (frame.getD pos 0) (frame.getD (pos + 1) 0)) }
  else if id = 0x09 then
    { d with throttle_position := some (frame.getD pos 0) }
  else if id = 0x0A then
    { d with gear_position := some (frame.getD pos 0) }
  else if 0x0B ≤ id ∧ id ≤ 0x0E then
    { d with tyre_pressures := fun j =>
        if (j : Nat) = id - 0x0B then some (u16be (frame.getD pos 0) (frame.getD (pos + 1) 0))
        else d.tyre_pressures j }
  else if 0x0F ≤ id ∧ id ≤ 0x12 then
    { d with tyre_temps := fun j =>
        if (j : Nat) = id - 0x0F then some (toI16 (u16be (frame.getD pos 0) (frame.getD (pos + 1) 0)))
        else d.tyre_temps j }
  else d

/-- The TLV walk (`while pos < crc_offset`).  The loop advances `pos` by
at least 2 each iteration, so `fuel = stop` iterations always suffice;
the fuel argument makes the recursion structural. -/
def tlvWalk (frame : List Nat) (stop : Nat) : Nat → Nat → ESP32Data → ESP32Data
  | 0, _, d => d
  | fuel + 1, pos, d =>
    if pos < stop then
      tlvWalk frame stop fuel (pos + 2 + frame.getD (pos + 1) 0)
        (applyTag frame (pos + 2) (frame.getD pos 0) d)
    else d

/-- `ESP32Connection::parse_frame` (src/esp32.rs lines 101-167). -/
def parse_frame (frame : List Nat) : Except String ESP32Data :=
  if frame.length < 8 then .error "Frame too short"
  else
    let tlv_end := tlvEnd frame
    if frame.length < tlv_end + 3 then .error "Frame length mismatch"
    else
      let crc_offset := tlv_end
      let crc_frame := (frame.drop 2).take (crc_offset - 2)
      let crc_recv := u16be (frame.getD crc_offset 0) (frame.getD (crc_offset + 1) 0)
      let crc_calc := crc16 crc_frame
      if crc_recv ≠ crc_calc then .error "CRC mismatch"
      else if frame.getD (crc_offset + 2) 0 ≠ 0x55 then .error "Missing EOF byte"
      else .ok (tlvWalk frame crc_offset crc_offset 3 ESP32Data.default)

/-! ### Well-formed frame construction -/

/-- Encode one TLV triple `[tag][len][value bytes]`. -/
def encodeTlv (t : Nat × List Nat) : List Nat := t.1 :: t.2.length :: t.2

/-- Encode a TLV list into the frame's TLV region. -/
def encodeTlvs : List (Nat × List Nat) → List Nat
  | [] => []
  | t :: ts => encodeTlv t ++ encodeTlvs ts

/-- Assemble a well-formed frame: start sentinel, LENGTH byte counting
the VERSION byte plus all TLV bytes, VERSION, TLV region, big-endian
CRC16 over VERSION plus TLV bytes, end sentinel. -/
def mkFrame (ver : Nat) (ts : List (Nat × List Nat)) : List Nat :=
  let body := ver :: encodeTlvs ts
  let crc := crc16 body
  0xAA :: body.length :: body ++ [crc / 256, crc % 256, 0x55]

/-! ### The byte-wise framing loop and serial read loop
(`ESP32Connection::start_listener`, src/esp32.rs lines 43-98).

The loop body's framing logic is a pure step function on the
accumulated `frame_buffer`: a start sentinel 0xAA always restarts the
frame, bytes accumulate only while a frame is open, and an end sentinel
0x55 closes and emits the frame once at least 8 bytes have
accumulated.  (The raw `buffer` vector is write-only in the source and
is omitted; the emitted frame is handed to `parse_frame` by the
caller.) -/

/-- One iteration of the framing logic for one received byte: returns
the new `frame_buffer` and the completed frame, if one was emitted. -/
def frameStep (fb : List Nat) (b : Nat) : List Nat × Option (List Nat) :=
  if b = 0xAA then ([b], none)
  else if fb ≠ [] then
    let fb' := fb ++ [b]
    if b = 0x55 ∧ 8 ≤ fb'.length then ([], some fb') else (fb', none)
  else (fb, none)

/-- Result of one `read_exact` call on the serial port. -/
inductive ReadResult where
  | ok (b : Nat)
  | fail

/-- Environment of the serial read loop: the result of the n-th read
and whether the n-th reconnection attempt (`Self::new()`) succeeds. -/
structure SerialEnv where
  read : Nat → ReadResult
  reopen : Nat → Bool

/-- How a bounded run of the serial read loop ends: either the fuel ran
out with the loop still running, or `start_listener` returned with an
error (the `?` on the reconnect in the `Err` arm). -/
inductive SerialOutcome where
  | fuelOut
  | returnedErr
deriving DecidableEq

/-- The serial read loop of `start_listener`, stripped to its control
flow: on a read the framing step runs; on a read error the code sleeps
and reopens the device, and a failed reopen propagates out of
`start_listener` via `?`.  (The time-based retention republish has no
bearing on the loop's control flow and is omitted.) -/
def serialLoop (env : SerialEnv) : Nat → Nat → Nat → List Nat → SerialOutcome
  | 0, _, _, _ => .fuelOut
  | fuel + 1, r, ro, fb =>
    match env.read r with
    | .ok b => serialLoop env fuel (r + 1) ro (frameStep fb b).1
    | .fail =>
      if env.reopen ro then serialLoop env fuel (r + 1) (ro + 1) fb
      else .returnedErr

/-! ## RaceBox BLE packet decoding (src/racebox/parser.rs)

The `f32`/`f64` arithmetic of the source is modelled exactly over `ℚ`;
every conversion in the source is a cast followed by division (or one
multiplication), written here with the same constants. -/

/-- `u16::from_le_bytes([a, b])` for bytes `a b < 256`. -/
def u16le (a b : Nat) : Nat := a + 256 * b

/-- `u32::from_le_bytes([a, b, c, d])` for bytes. -/
def u32le (a b c d : Nat) : Nat := a + 256 * b + 65536 * c + 16777216 * d

/-- Reinterpret a 32-bit unsigned value as `i32` (two's complement). -/
def toI32 (n : Nat) : Int :=
  if n < 2147483648 then (n : Int) else (n : Int) - 4294967296

/-- `RaceBoxData` (src/racebox/parser.rs lines 1-32).  Float fields are
modelled as `ℚ`. -/
structure RaceBoxData where
  timestamp_ms : Nat
  year : Nat
  month : Nat
  day : Nat
  hour : Nat
  minute : Nat
  second : Nat
  valid_time : Bool
  valid_date : Bool
  fix_status : Nat
  fix_ok : Bool
  num_sv : Nat
  latitude : ℚ
  longitude : ℚ
  wgs_alt : ℚ
  msl_alt : ℚ
  horiz_acc_mm : Nat
  vert_acc_mm : Nat
  speed_kph : ℚ
  heading_deg : ℚ
  speed_acc : ℚ
  heading_acc : ℚ
  pdop : ℚ
  g_force_x : ℚ
  g_force_y : ℚ
  g_force_z : ℚ
  rot_rate_x : ℚ
  rot_rate_y : ℚ
  rot_rate_z : ℚ

/-- `parse_packet` (src/racebox/parser.rs lines 34-117): reject unless
the payload is at least 80 bytes and starts with the fixed preamble
`0xB5 0x62 0xFF 0x01`; then decode fixed little-endian offsets with the
unit conversions of the source. -/
def parse_packet (data : List Nat) : Option RaceBoxData :=
  if data.length < 80 ∨ data.getD 0 0 ≠ 0xB5 ∨ data.getD 1 0 ≠ 0x62
      ∨ data.getD 2 0 ≠ 0xFF ∨ data.getD 3 0 ≠ 0x01 then
    none
  else
    let g := fun (i : Nat) => data.getD i 0
    some {
      timestamp_ms := u32le (g 6) (g 7) (g 8) (g 9)
      year := u16le (g 10) (g 11)
      month := g 12
      day := g 13
      hour := g 14
      minute := g 15
      second := g 16
      valid_date := (g 17) &&& 0b00000001 ≠ 0
      valid_time := (g 17) &&& 0b00000010 ≠ 0
      fix_status := g 20
      fix_ok := (g 21) &&& 0b00000001 ≠ 0
      num_sv := g 23
      latitude := (toI32 (u32le (g 28) (g 29) (g 30) (g 31)) : ℚ) / 10000000
      longitude := (toI32 (u32le (g 24) (g 25) (g 26) (g 27)) : ℚ) / 10000000
      wgs_alt := (toI32 (u32le (g 32) (g 33) (g 34) (g 35)) : ℚ) / 1000
      msl_alt := (toI32 (u32le (g 36) (g 37) (g 38) (g 39)) : ℚ) / 1000
      horiz_acc_mm := u32le (g 40) (g 41) (g 42) (g 43)
      vert_acc_mm := u32le (g 44) (g 45) (g 46) (g 47)
      speed_kph := (toI32 (u32le (g 48) (g 49) (g 50) (g 51)) : ℚ) * (36 / 10) / 1000
      heading_deg := (toI32 (u32le (g 52) (g 53) (g 54) (g 55)) : ℚ) / 100000
      speed_acc := (u32le (g 56) (g 57) (g 58) (g 59) : ℚ) / 1000
      heading_acc := (u32le (g 60) (g 61) (g 62) (g 63) : ℚ) / 100000
      pdop := (u16le (g 64) (g 65) : ℚ) / 100
      g_force_x := (toI16 (u16le (g 68) (g 69)) : ℚ) / 1000
      g_force_y := (toI16 (u16le (g 70) (g 71)) : ℚ) / 1000
      g_force_z := (toI16 (u16le (g 72) (g 73)) : ℚ) / 1000
      rot_rate_x := (toI16 (u16le (g 74) (g 75)) : ℚ) / 100
      rot_rate_y := (toI16 (u16le (g 76) (g 77)) : ℚ) / 100
      rot_rate_z := (toI16 (u16le (g 78) (g 79)) : ℚ) / 100
    }

/-! ## BLE link manager (src/racebox/ble.rs, `start_ble_listener`)

The listener task is modelled as a function over an environment that
supplies each external result.  The scan loop (`while !connected`) is
bounded by fuel; the task's `return` statements become the
`earlyReturn` outcome, and every `on_error` call is accumulated in the
returned error list. -/

/-- `BleError` (src/racebox/ble.rs lines 11-39), without the wrapped
transport error payloads. -/
inductive BleError where
  | managerCreation
  | noAdapter
  | scanStart
  | peripheralDiscovery
  | connection
  | serviceDiscovery
  | characteristicNotFound
  | subscription
  | notificationSetup
deriving DecidableEq

/-- One visible peripheral: its advertised name (absent when
`properties()` failed or had no name) and the results of the
connect/discover/lookup/subscribe/notification sequence. -/
structure BlePeripheral where
  name : Option String
  connectOk : Bool
  discoverOk : Bool
  hasUart : Bool
  hasTx : Bool
  subscribeOk : Bool
  notifyOk : Bool

/-- Result of `central.start_scan`: success, failure whose message
marks a scan already in progress (ignored by the source), or any other
failure. -/
inductive ScanStart where
  | ok
  | errInProgress
  | err

/-- Environment of the BLE listener.  A `none` from `peripherals`
models a failed `central.peripherals()` call on that scan cycle. -/
structure BleEnv where
  managerOk : Bool
  adaptersOk : Bool
  adapterCount : Nat
  scan : ScanStart
  peripherals : Nat → Option (List BlePeripheral)

/-- How the spawned listener task ends: an early `return` after a
reported failure, normal exit of the `while !connected` loop, or fuel
exhaustion with the loop still scanning. -/
inductive BleOutcome where
  | earlyReturn (e : BleError)
  | finished
  | fuelOut
deriving DecidableEq

/-- The `for p in peripherals` body: a name matching the expected
`"RaceBox Micro"` prefix triggers connect, service discovery, UART
service lookup, TX characteristic lookup, subscribe and notification
setup in sequence; any failure reports its error and `continue`s with
the next peripheral; success streams notifications, then sets
`connected`.  A missing UART service is reported as
`characteristicNotFound` (source line 212). -/
def tryPeripherals : List BlePeripheral → Bool → List BleError → Bool × List BleError
  | [], connected, errs => (connected, errs)
  | p :: ps, connected, errs =>
    match p.name with
    | none => tryPeripherals ps connected errs
    | some nm =>
      if "RaceBox Micro".data.isPrefixOf nm.data then
        if ¬p.connectOk then tryPeripherals ps connected (errs ++ [.connection])
        else if ¬p.discoverOk then tryPeripherals ps connected (errs ++ [.serviceDiscovery])
        else if p.hasUart then
          if ¬p.hasTx then tryPeripherals ps connected (errs ++ [.characteristicNotFound])
          else if ¬p.subscribeOk then tryPeripherals ps connected (errs ++ [.subscription])
          else if ¬p.notifyOk then tryPeripherals ps connected (errs ++ [.notificationSetup])
          else tryPeripherals ps true errs
        else tryPeripherals ps connected (errs ++ [.characteristicNotFound])
      else tryPeripherals ps connected errs

/-- The `while !connected` scan loop: each cycle enumerates the
currently visible peripherals (a failure there reports
`peripheralDiscovery` and continues) and tries them in order. -/
def bleScanLoop (env : BleEnv) : Nat → Nat → List BleError → BleOutcome × List BleError
  | 0, _, errs => (.fuelOut, errs)
  | fuel + 1, n, errs =>
    match env.peripherals n with
    | none => bleScanLoop env fuel (n + 1) (errs ++ [.peripheralDiscovery])
    | some ps =>
      match tryPeripherals ps false errs with
      | (true, errs') => (.finished, errs')
      | (false, errs') => bleScanLoop env fuel (n + 1) errs'

/-- The whole spawned task of `start_ble_listener`: manager creation,
adapter lookup (whose failure is reported as `managerCreation` through
the `From` impl), adapter selection and scan start each `return` on
failure; a scan-start failure whose message marks a scan already in
progress is ignored; then the scan loop runs. -/
def bleRun (env : BleEnv) (fuel : Nat) : BleOutcome × List BleError :=
  if ¬env.managerOk then (.earlyReturn .managerCreation, [.managerCreation])
  else if ¬env.adaptersOk then (.earlyReturn .managerCreation, [.managerCreation])
  else if env.adapterCount = 0 then (.earlyReturn .noAdapter, [.noAdapter])
  else
    match env.scan with
    | .err => (.earlyReturn .scanStart, [.scanStart])
    | _ => bleScanLoop env fuel 0 []

/-! ## Telemetry state and the local command surface
(src/telemetry.rs, src/main.rs) -/

/-- `DriveMode` (src/telemetry.rs). -/
inductive DriveMode where
  | Road
  | Track
deriving DecidableEq

/-- `ColorScheme` (src/telemetry.rs). -/
inductive ColorScheme where
  | Light
  | Dark
deriving DecidableEq

/-- `TelemetryError` (src/telemetry.rs). -/
inductive TelemetryError where
  | BLE (msg : String)
  | ESP32 (msg : String)

/-- `TelemetryState` (src/telemetry.rs lines 92-99); `Instant` is an
abstract `Nat`. -/
structure TelemetryState where
  latest_racebox_data : Option RaceBoxData
  latest_esp32_data : ESP32Data
  racebox_error : Option (TelemetryError × Nat)
  esp32_error : Option (TelemetryError × Nat)
  drive_mode : DriveMode
  color_scheme : ColorScheme

/-- `TelemetryState::set_drive_mode`. -/
def TelemetryState.set_drive_mode (s : TelemetryState) (m : DriveMode) : TelemetryState :=
  { s with drive_mode := m }

/-- `TelemetryState::set_color_scheme`. -/
def TelemetryState.set_color_scheme (s : TelemetryState) (c : ColorScheme) : TelemetryState :=
  { s with color_scheme := c }

/-- Split a character list on whitespace runs, keeping only non-empty
tokens (the semantics of Rust `split_whitespace`); `acc` holds the
current token reversed. -/
def splitWsAux : List Char → List Char → List (List Char)
  | [], acc => if acc = [] then [] else [acc.reverse]
  | c :: cs, acc =>
    if c.isWhitespace then
      if acc = [] then splitWsAux cs [] else acc.reverse :: splitWsAux cs []
    else splitWsAux cs (c :: acc)

/-- `cmd.trim().split_whitespace().collect()`: splitting on whitespace
runs already discards leading and trailing whitespace, so the trim is
absorbed by the split. -/
def tokenize (cmd : String) : List String :=
  (splitWsAux cmd.data []).map List.asString

/-- The token dispatch of `handle_command` (src/main.rs lines 97-113):
`response` starts as `"OK\n"` and is replaced on any unrecognized
command or value; valid commands mutate the corresponding selector. -/
def handleTokens (tokens : List String) (s : TelemetryState) : String × TelemetryState :=
  if tokens.length = 2 ∧ tokens.getD 0 "" = "set_mode" then
    if tokens.getD 1 "" = "Road" then ("OK\n", s.set_drive_mode .Road)
    else if tokens.getD 1 "" = "Track" then ("OK\n", s.set_drive_mode .Track)
    else ("ERR invalid mode: " ++ tokens.getD 1 "" ++ "\n", s)
  else if tokens.length = 2 ∧ tokens.getD 0 "" = "set_scheme" then
    if tokens.getD 1 "" = "Light" then ("OK\n", s.set_color_scheme .Light)
    else if tokens.getD 1 "" = "Dark" then ("OK\n", s.set_color_scheme .Dark)
    else ("ERR invalid scheme: " ++ tokens.getD 1 "" ++ "\n", s)
  else ("ERR unknown command\n", s)

/-- `handle_command` on one request line: tokenize, dispatch, reply. -/
def handleCommand (line : String) (s : TelemetryState) : String × TelemetryState :=
  handleTokens (tokenize line) s

/-! ## Statement-level predicates -/

/-- The field `o` of the decoded sample is set exactly when `present`
held in the frame or the field was already set before the walk. -/
def setIff (o0 o : Option α) (present : Prop) : Prop :=
  o.isSome = true ↔ present ∨ o0.isSome = true

/-- Walking a TLV region whose tag list is `tags` turns `d0` into `d`:
each field is set exactly when its tag occurs in `tags` or it was
already set. -/
def tagsChar (tags : List Nat) (d0 d : ESP32Data) : Prop :=
  setIff d0.fuel_level d.fuel_level (0x01 ∈ tags)
  ∧ setIff d0.oil_pressure d.oil_pressure (0x02 ∈ tags)
  ∧ setIff d0.boost_pressure d.boost_pressure (0x03 ∈ tags)
  ∧ setIff d0.rpm d.rpm (0x04 ∈ tags)
  ∧ setIff d0.speed d.speed (0x05 ∈ tags)
  ∧ setIff d0.status_flags d.status_flags (0x06 ∈ tags)
  ∧ setIff d0.steering_angle d.steering_angle (0x07 ∈ tags)
  ∧ setIff d0.brake_pressure d.brake_pressure (0x08 ∈ tags)
  ∧ setIff d0.throttle_position d.throttle_position (0x09 ∈ tags)
  ∧ setIff d0.gear_position d.gear_position (0x0A ∈ tags)
  ∧ (∀ j : Fin 4, setIff (d0.tyre_pressures j) (d.tyre_pressures j) (0x0B + (j : Nat) ∈ tags))
  ∧ (∀ j : Fin 4, setIff (d0.tyre_temps j) (d.tyre_temps j) (0x0F + (j : Nat) ∈ tags))

/-- Exactly the fields whose tags occur in `tags` are set in `d`; every
other field is unset. -/
def exactlyTagged (tags : List Nat) (d : ESP32Data) : Prop :=
  (d.fuel_level.isSome = true ↔ 0x01 ∈ tags)
  ∧ (d.oil_pressure.isSome = true ↔ 0x02 ∈ tags)
  ∧ (d.boost_pressure.isSome = true ↔ 0x03 ∈ tags)
  ∧ (d.rpm.isSome = true ↔ 0x04 ∈ tags)
  ∧ (d.speed.isSome = true ↔ 0x05 ∈ tags)
  ∧ (d.status_flags.isSome = true ↔ 0x06 ∈ tags)
  ∧ (d.steering_angle.isSome = true ↔ 0x07 ∈ tags)
  ∧ (d.brake_pressure.isSome = true ↔ 0x08 ∈ tags)
  ∧ (d.throttle_position.isSome = true ↔ 0x09 ∈ tags)
  ∧ (d.gear_position.isSome = true ↔ 0x0A ∈ tags)
  ∧ (∀ j : Fin 4, ((d.tyre_pressures j).isSome = true ↔ 0x0B + (j : Nat) ∈ tags))
  ∧ (∀ j : Fin 4, ((d.tyre_temps j).isSome = true ↔ 0x0F + (j : Nat) ∈ tags))

/-! ## CRC16 lemmas

The shift rounds are injective on 16-bit states, one step distinguishes
distinct message bytes at equal states, and the fold preserves state
inequality, so corrupting a single covered byte always changes the
CRC. -/

theorem xor_cancel_right' {a b k : Nat} (h : a ^^^ k = b ^^^ k) : a = b := by
  have h2 := congrArg (fun x => x ^^^ k) h
  simpa [Nat.xor_assoc] using h2

theorem xor_cancel_left' {a x y : Nat} (h : a ^^^ x = a ^^^ y) : x = y := by
  have h2 := congrArg (fun z => a ^^^ z) h
  simpa [← Nat.xor_assoc] using h2

theorem and_bit15 {c : Nat} (h : c < 65536) : c &&& 0x8000 ≠ 0 ↔ 32768 ≤ c := by
  show c &&& 2 ^ 15 ≠ 0 ↔ 32768 ≤ c
  rw [Nat.and_two_pow, Nat.testBit_to_div_mod]
  by_cases hx : c / 2 ^ 15 % 2 = 1
  · rw [decide_eq_true hx]
    have hc : (32768 : Nat) ≤ c := by norm_num at hx; omega
    simp [hc]
  · rw [decide_eq_false hx]
    have hc : ¬ (32768 : Nat) ≤ c := by norm_num at hx; omega
    simp [hc]

theorem crcShift_lt (c : Nat) : crcShift c < 65536 := by
  unfold crcShift
  split
  · exact Nat.xor_lt_two_pow (n := 16) (Nat.mod_lt _ (by norm_num)) (by norm_num)
  · exact Nat.mod_lt _ (by norm_num)

theorem crcShift_inj {c1 c2 : Nat} (h1 : c1 < 65536) (h2 : c2 < 65536)
    (h : crcShift c1 = crcShift c2) : c1 = c2 := by
  unfold crcShift at h
  by_cases hb1 : c1 &&& 0x8000 ≠ 0 <;> by_cases hb2 : c2 &&& 0x8000 ≠ 0
  · rw [if_pos hb1, if_pos hb2] at h
    have heq := xor_cancel_right' h
    have m1 := (and_bit15 h1).mp hb1
    have m2 := (and_bit15 h2).mp hb2
    omega
  · rw [if_pos hb1, if_neg hb2] at h
    have hp : ((c1 * 2 % 65536) ^^^ 0x1021) % 2 = 1 := by
      rw [Nat.xor_mod_two_eq_one]
      omega
    rw [h] at hp
    omega
  · rw [if_neg hb1, if_pos hb2] at h
    have hp : ((c2 * 2 % 65536) ^^^ 0x1021) % 2 = 1 := by
      rw [Nat.xor_mod_two_eq_one]
      omega
    rw [← h] at hp
    omega
  · rw [if_neg hb1, if_neg hb2] at h
    have m1 : ¬ 32768 ≤ c1 := fun hh => hb1 ((and_bit15 h1).mpr hh)
    have m2 : ¬ 32768 ≤ c2 := fun hh => hb2 ((and_bit15 h2).mpr hh)
    omega

theorem crcRounds_lt : ∀ (n c : Nat), crcRounds (n + 1) c < 65536
  | 0, c => by simpa [crcRounds] using crcShift_lt c
  | n + 1, c => by
    show crcRounds (n + 1) (crcShift c) < 65536
    exact crcRounds_lt n (crcShift c)

theorem crcRounds_inj : ∀ (n : Nat) {c1 c2 : Nat}, c1 < 65536 → c2 < 65536 →
    crcRounds n c1 = crcRounds n c2 → c1 = c2
  | 0, _, _, _, _, h => h
  | n + 1, c1, c2, h1, h2, h => by
    have hrec := crcRounds_inj n (crcShift_lt c1) (crcShift_lt c2) h
    exact crcShift_inj h1 h2 hrec

theorem shiftl8_lt {b : Nat} (hb : b < 256) : b <<< 8 < 65536 := by
  rw [Nat.shiftLeft_eq]
  norm_num
  omega

theorem crcStep_lt (c b : Nat) : crcStep c b < 65536 := crcRounds_lt 7 _

theorem crcStep_inj_state {b c1 c2 : Nat} (hb : b < 256) (h1 : c1 < 65536) (h2 : c2 < 65536)
    (h : crcStep c1 b = crcStep c2 b) : c1 = c2 := by
  have hx1 : c1 ^^^ (b <<< 8) < 65536 := Nat.xor_lt_two_pow (n := 16) h1 (shiftl8_lt hb)
  have hx2 : c2 ^^^ (b <<< 8) < 65536 := Nat.xor_lt_two_pow (n := 16) h2 (shiftl8_lt hb)
  exact xor_cancel_right' (crcRounds_inj 8 hx1 hx2 h)

theorem crcStep_inj_byte {c b1 b2 : Nat} (hc : c < 65536) (hb1 : b1 < 256) (hb2 : b2 < 256)
    (h : crcStep c b1 = crcStep c b2) : b1 = b2 := by
  have hx1 : c ^^^ (b1 <<< 8) < 65536 := Nat.xor_lt_two_pow (n := 16) hc (shiftl8_lt hb1)
  have hx2 : c ^^^ (b2 <<< 8) < 65536 := Nat.xor_lt_two_pow (n := 16) hc (shiftl8_lt hb2)
  have heq := xor_cancel_left' (crcRounds_inj 8 hx1 hx2 h)
  rw [Nat.shiftLeft_eq, Nat.shiftLeft_eq] at heq
  norm_num at heq
  omega

theorem crcFold_ne : ∀ (l : List Nat) {c1 c2 : Nat}, (∀ b ∈ l, b < 256) →
    c1 < 65536 → c2 < 65536 → c1 ≠ c2 → l.foldl crcStep c1 ≠ l.foldl crcStep c2
  | [], _, _, _, _, _, hne => hne
  | b :: l, c1, c2, hl, h1, h2, hne => by
    have hb : b < 256 := hl b (by simp)
    have hstep : crcStep c1 b ≠ crcStep c2 b :=
      fun he => hne (crcStep_inj_state hb h1 h2 he)
    have hrec := crcFold_ne l (fun x hx => hl x (by simp [hx]))
      (crcStep_lt c1 b) (crcStep_lt c2 b) hstep
    simpa [List.foldl] using hrec

theorem crcFold_change : ∀ (p : List Nat) {s : List Nat} {b1 b2 c : Nat},
    (∀ x ∈ s, x < 256) → b1 < 256 → b2 < 256 → c < 65536 → b1 ≠ b2 →
    (p ++ b1 :: s).foldl crcStep c ≠ (p ++ b2 :: s).foldl crcStep c
  | [], s, b1, b2, c, hs, hb1, hb2, hc, hne => by
    simp only [List.nil_append, List.foldl_cons]
    exact crcFold_ne s hs (crcStep_lt c b1) (crcStep_lt c b2)
      (fun he => hne (crcStep_inj_byte hc hb1 hb2 he))
  | x :: p, s, b1, b2, c, hs, hb1, hb2, hc, hne => by
    simp only [List.cons_append, List.foldl_cons]
    exact crcFold_change p hs hb1 hb2 (crcStep_lt c x) hne

theorem crc16_change {p s : List Nat} {b1 b2 : Nat}
    (hs : ∀ x ∈ s, x < 256) (hb1 : b1 < 256) (hb2 : b2 < 256) (hne : b1 ≠ b2) :
    crc16 (p ++ b1 :: s) ≠ crc16 (p ++ b2 :: s) :=
  crcFold_change p hs hb1 hb2 (by norm_num) hne

/-! ## TLV walk characterization -/

theorem tagsChar_nil (d : ESP32Data) : tagsChar [] d d := by
  simp [tagsChar, setIff]

theorem applyTag_fuel_level (f : List Nat) (p id : Nat) (d : ESP32Data) :
    (applyTag f p id d).fuel_level =
      if id = 0x01 then some (u16be (f.getD p 0) (f.getD (p + 1) 0)) else d.fuel_level := by
  rcases Nat.lt_or_ge id 19 with hid | hid
  · interval_cases id <;> rfl
  · unfold applyTag
    rw [if_neg (by omega : ¬ id = 0x01), if_neg (by omega : ¬ id = 0x02),
      if_neg (by omega : ¬ id = 0x03), if_neg (by omega : ¬ id = 0x04),
      if_neg (by omega : ¬ id = 0x05), if_neg (by omega : ¬ id = 0x06),
      if_neg (by omega : ¬ id = 0x07), if_neg (by omega : ¬ id = 0x08),
      if_neg (by omega : ¬ id = 0x09), if_neg (by omega : ¬ id = 0x0A),
      if_neg (by omega : ¬ (0x0B ≤ id ∧ id ≤ 0x0E)), if_neg (by omega : ¬ (0x0F ≤ id ∧ id ≤ 0x12)),
      if_neg (by omega : ¬ id = 0x01)]

theorem applyTag_oil_pressure (f : List Nat) (p id : Nat) (d : ESP32Data) :
    (applyTag f p id d).oil_pressure =
      if id = 0x02 then some (u16be (f.getD p 0) (f.getD (p + 1) 0)) else d.oil_pressure := by
  rcases Nat.lt_or_ge id 19 with hid | hid
  · interval_cases id <;> rfl
  · unfold applyTag
    rw [if_neg (by omega : ¬ id = 0x01), if_neg (by omega : ¬ id = 0x02),
      if_neg (by omega : ¬ id = 0x03), if_neg (by omega : ¬ id = 0x04),
      if_neg (by omega : ¬ id = 0x05), if_neg (by omega : ¬ id = 0x06),
      if_neg (by omega : ¬ id = 0x07), if_neg (by omega : ¬ id = 0x08),
      if_neg (by omega : ¬ id = 0x09), if_neg (by omega : ¬ id = 0x0A),
      if_neg (by omega : ¬ (0x0B ≤ id ∧ id ≤ 0x0E)), if_neg (by omega : ¬ (0x0F ≤ id ∧ id ≤ 0x12)),
      if_neg (by omega : ¬ id = 0x02)]

theorem applyTag_boost_pressure (f : List Nat) (p id : Nat) (d : ESP32Data) :
    (applyTag f p id d).boost_pressure =
      if id = 0x03 then some (u16be (f.getD p 0) (f.getD (p + 1) 0)) else d.boost_pressure := by
  rcases Nat.lt_or_ge id 19 with hid | hid
  · interval_cases id <;> rfl
  · unfold applyTag
    rw [if_neg (by omega : ¬ id = 0x01), if_neg (by omega : ¬ id = 0x02),
      if_neg (by omega : ¬ id = 0x03), if_neg (by omega : ¬ id = 0x04),
      if_neg (by omega : ¬ id = 0x05), if_neg (by omega : ¬ id = 0x06),
      if_neg (by omega : ¬ id = 0x07), if_neg (by omega : ¬ id = 0x08),
      if_neg (by omega : ¬ id = 0x09), if_neg (by omega : ¬ id = 0x0A),
      if_neg (by omega : ¬ (0x0B ≤ id ∧ id ≤ 0x0E)), if_neg (by omega : ¬ (0x0F ≤ id ∧ id ≤ 0x12)),
      if_neg (by omega : ¬ id = 0x03)]

theorem applyTag_rpm (f : List Nat) (p id : Nat) (d : ESP32Data) :
    (applyTag f p id d).rpm =
      if id = 0x04 then some (u16be (f.getD p 0) (f.getD (p + 1) 0)) else d.rpm := by
  rcases Nat.lt_or_ge id 19 with hid | hid
  · interval_cases id <;> rfl
  · unfold applyTag
    rw [if_neg (by omega : ¬ id = 0x01), if_neg (by omega : ¬ id = 0x02),
      if_neg (by omega : ¬ id = 0x03), if_neg (by omega : ¬ id = 0x04),
      if_neg (by omega : ¬ id = 0x05), if_neg (by omega : ¬ id = 0x06),
      if_neg (by omega : ¬ id = 0x07), if_neg (by omega : ¬ id = 0x08),
      if_neg (by omega : ¬ id = 0x09), if_neg (by omega : ¬ id = 0x0A),
      if_neg (by omega : ¬ (0x0B ≤ id ∧ id ≤ 0x0E)), if_neg (by omega : ¬ (0x0F ≤ id ∧ id ≤ 0x12)),
      if_neg (by omega : ¬ id = 0x04)]

theorem applyTag_speed (f : List Nat) (p id : Nat) (d : ESP32Data) :
    (applyTag f p id d).speed =
      if id = 0x05 then some (u16be (f.getD p 0) (f.getD (p + 1) 0)) else d.speed := by
  rcases Nat.lt_or_ge id 19 with hid | hid
  · interval_cases id <;> rfl
  · unfold applyTag
    rw [if_neg (by omega : ¬ id = 0x01), if_neg (by omega : ¬ id = 0x02),
      if_neg (by omega : ¬ id = 0x03), if_neg (by omega : ¬ id = 0x04),
      if_neg (by omega : ¬ id = 0x05), if_neg (by omega : ¬ id = 0x06),
      if_neg (by omega : ¬ id = 0x07), if_neg (by omega : ¬ id = 0x08),
      if_neg (by omega : ¬ id = 0x09), if_neg (by omega : ¬ id = 0x0A),
      if_neg (by omega : ¬ (0x0B ≤ id ∧ id ≤ 0x0E)), if_neg (by omega : ¬ (0x0F ≤ id ∧ id ≤ 0x12)),
      if_neg (by omega : ¬ id = 0x05)]

theorem applyTag_status_flags (f : List Nat) (p id : Nat) (d : ESP32Data) :
    (applyTag f p id d).status_flags =
      if id = 0x06 then some (StatusFlags.from_byte (f.getD p 0)) else d.status_flags := by
  rcases Nat.lt_or_ge id 19 with hid | hid
  · interval_cases id <;> rfl
  · unfold applyTag
    rw [if_neg (by omega : ¬ id = 0x01), if_neg (by omega : ¬ id = 0x02),
      if_neg (by omega : ¬ id = 0x03), if_neg (by omega : ¬ id = 0x04),
      if_neg (by omega : ¬ id = 0x05), if_neg (by omega : ¬ id = 0x06),
      if_neg (by omega : ¬ id = 0x07), if_neg (by omega : ¬ id = 0x08),
      if_neg (by omega : ¬ id = 0x09), if_neg (by omega : ¬ id = 0x0A),
      if_neg (by omega : ¬ (0x0B ≤ id ∧ id ≤ 0x0E)), if_neg (by omega : ¬ (0x0F ≤ id ∧ id ≤ 0x12)),
      if_neg (by omega : ¬ id = 0x06)]

theorem applyTag_steering_angle (f : List Nat) (p id : Nat) (d : ESP32Data) :
    (applyTag f p id d).steering_angle =
      if id = 0x07 then some (toI16 (u16be (f.getD p 0) (f.getD (p + 1) 0))) else d.steering_angle := by
  rcases Nat.lt_or_ge id 19 with hid | hid
  · interval_cases id <;> rfl
  · unfold applyTag
    rw [if_neg (by omega : ¬ id = 0x01), if_neg (by omega : ¬ id = 0x02),
      if_neg (by omega : ¬ id = 0x03), if_neg (by omega : ¬ id = 0x04),
      if_neg (by omega : ¬ id = 0x05), if_neg (by omega : ¬ id = 0x06),
      if_neg (by omega : ¬ id = 0x07), if_neg (by omega : ¬ id = 0x08),
      if_neg (by omega : ¬ id = 0x09), if_neg (by omega : ¬ id = 0x0A),
      if_neg (by omega : ¬ (0x0B ≤ id ∧ id ≤ 0x0E)), if_neg (by omega : ¬ (0x0F ≤ id ∧ id ≤ 0x12)),
      if_neg (by omega : ¬ id = 0x07)]

theorem applyTag_brake_pressure (f : List Nat) (p id : Nat) (d : ESP32Data) :
    (applyTag f p id d).brake_pressure =
      if id = 0x08 then some (u16be (f.getD p 0) (f.getD (p + 1) 0)) else d.brake_pressure := by
  rcases Nat.lt_or_ge id 19 with hid | hid
  · interval_cases id <;> rfl
  · unfold applyTag
    rw [if_neg (by omega : ¬ id = 0x01), if_neg (by omega : ¬ id = 0x02),
      if_neg (by omega : ¬ id = 0x03), if_neg (by omega : ¬ id = 0x04),
      if_neg (by omega : ¬ id = 0x05), if_neg (by omega : ¬ id = 0x06),
      if_neg (by omega : ¬ id = 0x07), if_neg (by omega : ¬ id = 0x08),
      if_neg (by omega : ¬ id = 0x09), if_neg (by omega : ¬ id = 0x0A),
      if_neg (by omega : ¬ (0x0B ≤ id ∧ id ≤ 0x0E)), if_neg (by omega : ¬ (0x0F ≤ id ∧ id ≤ 0x12)),
      if_neg (by omega : ¬ id = 0x08)]

theorem applyTag_throttle_position (f : List Nat) (p id : Nat) (d : ESP32Data) :
    (applyTag f p id d).throttle_position =
      if id = 0x09 then some (f.getD p 0) else d.throttle_position := by
  rcases Nat.lt_or_ge id 19 with hid | hid
  · interval_cases id <;> rfl
  · unfold applyTag
    rw [if_neg (by omega : ¬ id = 0x01), if_neg (by omega : ¬ id = 0x02),
      if_neg (by omega : ¬ id = 0x03), if_neg (by omega : ¬ id = 0x04),
      if_neg (by omega : ¬ id = 0x05), if_neg (by omega : ¬ id = 0x06),
      if_neg (by omega : ¬ id = 0x07), if_neg (by omega : ¬ id = 0x08),
      if_neg (by omega : ¬ id = 0x09), if_neg (by omega : ¬ id = 0x0A),
      if_neg (by omega : ¬ (0x0B ≤ id ∧ id ≤ 0x0E)), if_neg (by omega : ¬ (0x0F ≤ id ∧ id ≤ 0x12)),
      if_neg (by omega : ¬ id = 0x09)]

theorem applyTag_gear_position (f : List Nat) (p id : Nat) (d : ESP32Data) :
    (applyTag f p id d).gear_position =
      if id = 0x0A then some (f.getD p 0) else d.gear_position := by
  rcases Nat.lt_or_ge id 19 with hid | hid
  · interval_cases id <;> rfl
  · unfold applyTag
    rw [if_neg (by omega : ¬ id = 0x01), if_neg (by omega : ¬ id = 0x02),
      if_neg (by omega : ¬ id = 0x03), if_neg (by omega : ¬ id = 0x04),
      if_neg (by omega : ¬ id = 0x05), if_neg (by omega : ¬ id = 0x06),
      if_neg (by omega : ¬ id = 0x07), if_neg (by omega : ¬ id = 0x08),
      if_neg (by omega : ¬ id = 0x09), if_neg (by omega : ¬ id = 0x0A),
      if_neg (by omega : ¬ (0x0B ≤ id ∧ id ≤ 0x0E)), if_neg (by omega : ¬ (0x0F ≤ id ∧ id ≤ 0x12)),
      if_neg (by omega : ¬ id = 0x0A)]

theorem applyTag_tyre_pressures (f : List Nat) (p id : Nat) (d : ESP32Data) :
    (applyTag f p id d).tyre_pressures =
      if (0x0B ≤ id ∧ id ≤ 0x0E) then fun (j : Fin 4) => if (j : Nat) = id - 0x0B then some (u16be (f.getD p 0) (f.getD (p + 1) 0)) else d.tyre_pressures j else d.tyre_pressures := by
  rcases Nat.lt_or_ge id 19 with hid | hid
  · interval_cases id <;> rfl
  · unfold applyTag
    rw [if_neg (by omega : ¬ id = 0x01), if_neg (by omega : ¬ id = 0x02),
      if_neg (by omega : ¬ id = 0x03), if_neg (by omega : ¬ id = 0x04),
      if_neg (by omega : ¬ id = 0x05), if_neg (by omega : ¬ id = 0x06),
      if_neg (by omega : ¬ id = 0x07), if_neg (by omega : ¬ id = 0x08),
      if_neg (by omega : ¬ id = 0x09), if_neg (by omega : ¬ id = 0x0A),
      if_neg (by omega : ¬ (0x0B ≤ id ∧ id ≤ 0x0E)), if_neg (by omega : ¬ (0x0F ≤ id ∧ id ≤ 0x12)),
      if_neg (by omega : ¬ (0x0B ≤ id ∧ id ≤ 0x0E))]

theorem applyTag_tyre_temps (f : List Nat) (p id : Nat) (d : ESP32Data) :
    (applyTag f p id d).tyre_temps =
      if (0x0F ≤ id ∧ id ≤ 0x12) then fun (j : Fin 4) => if (j : Nat) = id - 0x0F then some (toI16 (u16be (f.getD p 0) (f.getD (p + 1) 0))) else d.tyre_temps j else d.tyre_temps := by
  rcases Nat.lt_or_ge id 19 with hid | hid
  · interval_cases id <;> rfl
  · unfold applyTag
    rw [if_neg (by omega : ¬ id = 0x01), if_neg (by omega : ¬ id = 0x02),
      if_neg (by omega : ¬ id = 0x03), if_neg (by omega : ¬ id = 0x04),
      if_neg (by omega : ¬ id = 0x05), if_neg (by omega : ¬ id = 0x06),
      if_neg (by omega : ¬ id = 0x07), if_neg (by omega : ¬ id = 0x08),
      if_neg (by omega : ¬ id = 0x09), if_neg (by omega : ¬ id = 0x0A),
      if_neg (by omega : ¬ (0x0B ≤ id ∧ id ≤ 0x0E)), if_neg (by omega : ¬ (0x0F ≤ id ∧ id ≤ 0x12)),
      if_neg (by omega : ¬ (0x0F ≤ id ∧ id ≤ 0x12))]


theorem applyTag_char (f : List Nat) (p id : Nat) (d : ESP32Data) :
    tagsChar [id] d (applyTag f p id d) := by
  unfold tagsChar setIff
  refine ⟨?_, ?_, ?_, ?_, ?_, ?_, ?_, ?_, ?_, ?_, fun j => ?_, fun j => ?_⟩
  · rw [applyTag_fuel_level]
    by_cases h : id = 0x01
    · simp [h]
    · simp [h, Ne.symm h]
  · rw [applyTag_oil_pressure]
    by_cases h : id = 0x02
    · simp [h]
    · simp [h, Ne.symm h]
  · rw [applyTag_boost_pressure]
    by_cases h : id = 0x03
    · simp [h]
    · simp [h, Ne.symm h]
  · rw [applyTag_rpm]
    by_cases h : id = 0x04
    · simp [h]
    · simp [h, Ne.symm h]
  · rw [applyTag_speed]
    by_cases h : id = 0x05
    · simp [h]
    · simp [h, Ne.symm h]
  · rw [applyTag_status_flags]
    by_cases h : id = 0x06
    · simp [h]
    · simp [h, Ne.symm h]
  · rw [applyTag_steering_angle]
    by_cases h : id = 0x07
    · simp [h]
    · simp [h, Ne.symm h]
  · rw [applyTag_brake_pressure]
    by_cases h : id = 0x08
    · simp [h]
    · simp [h, Ne.symm h]
  · rw [applyTag_throttle_position]
    by_cases h : id = 0x09
    · simp [h]
    · simp [h, Ne.symm h]
  · rw [applyTag_gear_position]
    by_cases h : id = 0x0A
    · simp [h]
    · simp [h, Ne.symm h]
  · rw [applyTag_tyre_pressures]
    have hlt := j.isLt
    by_cases hc : 0x0B ≤ id ∧ id ≤ 0x0E
    · rw [if_pos hc]
      by_cases hj : (j : Nat) = id - 0x0B
      · have he : 0x0B + (j : Nat) = id := by omega
        simp only [hj, if_true, Option.isSome_some, true_iff]
        exact Or.inl (List.mem_singleton.mpr (by omega))
      · have hne : (0x0B + (j : Nat)) ≠ id := by omega
        simp [hj, hne]
    · rw [if_neg hc]
      have hne : (0x0B + (j : Nat)) ≠ id := by omega
      simp [hne]
  · rw [applyTag_tyre_temps]
    have hlt := j.isLt
    by_cases hc : 0x0F ≤ id ∧ id ≤ 0x12
    · rw [if_pos hc]
      by_cases hj : (j : Nat) = id - 0x0F
      · have he : 0x0F + (j : Nat) = id := by omega
        simp only [hj, if_true, Option.isSome_some, true_iff]
        exact Or.inl (List.mem_singleton.mpr (by omega))
      · have hne : (0x0F + (j : Nat)) ≠ id := by omega
        simp [hj, hne]
    · rw [if_neg hc]
      have hne : (0x0F + (j : Nat)) ≠ id := by omega
      simp [hne]

theorem setIff_trans {α : Type} {o0 o1 o2 : Option α} {P Q : Prop}
    (h1 : setIff o0 o1 P) (h2 : setIff o1 o2 Q) : setIff o0 o2 (Q ∨ P) := by
  unfold setIff at *
  tauto

theorem setIff_congr {α : Type} {o0 o2 : Option α} {P P' : Prop}
    (hP : P ↔ P') (h : setIff o0 o2 P) : setIff o0 o2 P' := by
  unfold setIff at *
  rw [← hP]
  exact h

theorem mem_append_swap {a : Nat} {t1 t2 : List Nat} :
    a ∈ t2 ∨ a ∈ t1 ↔ a ∈ t1 ++ t2 := by
  rw [List.mem_append]
  tauto

theorem tagsChar_trans {t1 t2 : List Nat} {d0 d1 d2 : ESP32Data}
    (h1 : tagsChar t1 d0 d1) (h2 : tagsChar t2 d1 d2) : tagsChar (t1 ++ t2) d0 d2 := by
  unfold tagsChar at h1 h2 ⊢
  obtain ⟨a1, a2, a3, a4, a5, a6, a7, a8, a9, a10, a11, a12⟩ := h1
  obtain ⟨b1, b2, b3, b4, b5, b6, b7, b8, b9, b10, b11, b12⟩ := h2
  exact ⟨setIff_congr mem_append_swap (setIff_trans a1 b1),
    setIff_congr mem_append_swap (setIff_trans a2 b2),
    setIff_congr mem_append_swap (setIff_trans a3 b3),
    setIff_congr mem_append_swap (setIff_trans a4 b4),
    setIff_congr mem_append_swap (setIff_trans a5 b5),
    setIff_congr mem_append_swap (setIff_trans a6 b6),
    setIff_congr mem_append_swap (setIff_trans a7 b7),
    setIff_congr mem_append_swap (setIff_trans a8 b8),
    setIff_congr mem_append_swap (setIff_trans a9 b9),
    setIff_congr mem_append_swap (setIff_trans a10 b10),
    fun j => setIff_congr mem_append_swap (setIff_trans (a11 j) (b11 j)),
    fun j => setIff_congr mem_append_swap (setIff_trans (a12 j) (b12 j))⟩

theorem exactlyTagged_of_tagsChar {tags : List Nat} {d : ESP32Data}
    (h : tagsChar tags ESP32Data.default d) : exactlyTagged tags d := by
  unfold tagsChar at h
  unfold exactlyTagged
  obtain ⟨a1, a2, a3, a4, a5, a6, a7, a8, a9, a10, a11, a12⟩ := h
  refine ⟨?_, ?_, ?_, ?_, ?_, ?_, ?_, ?_, ?_, ?_, fun j => ?_, fun j => ?_⟩
  · simpa [setIff, ESP32Data.default] using a1
  · simpa [setIff, ESP32Data.default] using a2
  · simpa [setIff, ESP32Data.default] using a3
  · simpa [setIff, ESP32Data.default] using a4
  · simpa [setIff, ESP32Data.default] using a5
  · simpa [setIff, ESP32Data.default] using a6
  · simpa [setIff, ESP32Data.default] using a7
  · simpa [setIff, ESP32Data.default] using a8
  · simpa [setIff, ESP32Data.default] using a9
  · simpa [setIff, ESP32Data.default] using a10
  · simpa [setIff, ESP32Data.default] using a11 j
  · simpa [setIff, ESP32Data.default] using a12 j

theorem tlvWalk_char (ts : List (Nat × List Nat)) :
    ∀ (frame : List Nat) (pos fuel : Nat) (d : ESP32Data),
    (∀ j, j < (encodeTlvs ts).length → frame[pos + j]? = (encodeTlvs ts)[j]?) →
    ts.length ≤ fuel →
    tagsChar (ts.map Prod.fst) d
      (tlvWalk frame (pos + (encodeTlvs ts).length) fuel pos d) := by
  induction ts with
  | nil =>
    intro frame pos fuel d _ _
    have hwalk : tlvWalk frame (pos + (encodeTlvs []).length) fuel pos d = d := by
      cases fuel <;> simp [tlvWalk, encodeTlvs]
    rw [hwalk]
    exact tagsChar_nil d
  | cons t rest ih =>
    intro frame pos fuel d hcov hfuel
    obtain ⟨tag, v⟩ := t
    have hel : encodeTlvs ((tag, v) :: rest) = tag :: v.length :: (v ++ encodeTlvs rest) := by
      simp [encodeTlvs, encodeTlv]
    have h0 : frame[pos]? = some tag := by
      have hx := hcov 0 (by simp [hel])
      simpa [hel] using hx
    have h1 : frame[pos + 1]? = some v.length := by
      have hx := hcov 1 (by simp [hel])
      simpa [hel] using hx
    have hg0 : frame.getD pos 0 = tag := by simp [List.getD_eq_getElem?_getD, h0]
    have hg1 : frame.getD (pos + 1) 0 = v.length := by simp [List.getD_eq_getElem?_getD, h1]
    cases fuel with
    | zero => simp at hfuel
    | succ f =>
      have hlt : pos < pos + (encodeTlvs ((tag, v) :: rest)).length := by
        simp [hel]
      rw [tlvWalk, if_pos hlt, hg0, hg1]
      have hstop : pos + (encodeTlvs ((tag, v) :: rest)).length
          = (pos + 2 + v.length) + (encodeTlvs rest).length := by
        simp [hel]
        omega
      rw [hstop]
      have hcov' : ∀ j, j < (encodeTlvs rest).length →
          frame[(pos + 2 + v.length) + j]? = (encodeTlvs rest)[j]? := by
        intro j hj
        have hlen : 2 + v.length + j < (encodeTlvs ((tag, v) :: rest)).length := by
          simp [hel]
          omega
        have hx := hcov (2 + v.length + j) hlen
        have hidx : (pos + 2 + v.length) + j = pos + (2 + v.length + j) := by omega
        rw [hidx, hx, hel]
        have e1 : 2 + v.length + j = (v.length + j) + 1 + 1 := by omega
        rw [e1, List.getElem?_cons_succ, List.getElem?_cons_succ,
          List.getElem?_append_right (by omega)]
        simp
      have hf : rest.length ≤ f := by
        simp at hfuel
        omega
      have hrec := ih frame (pos + 2 + v.length) f (applyTag frame (pos + 2) tag d) hcov' hf
      have happ := applyTag_char frame (pos + 2) tag d
      have hcomb := tagsChar_trans happ hrec
      simpa using hcomb

/-! ## Well-formed frame evaluation -/

theorem encodeTlvs_two_mul_le (ts : List (Nat × List Nat)) :
    2 * ts.length ≤ (encodeTlvs ts).length := by
  induction ts with
  | nil => simp [encodeTlvs]
  | cons t rest ih =>
    simp [encodeTlvs, encodeTlv] at *
    omega

theorem mkFrame_eq (ver : Nat) (ts : List (Nat × List Nat)) :
    mkFrame ver ts = ([0xAA, (encodeTlvs ts).length + 1, ver] ++ encodeTlvs ts)
      ++ [crc16 (ver :: encodeTlvs ts) / 256, crc16 (ver :: encodeTlvs ts) % 256, 0x55] := by
  unfold mkFrame
  simp [List.cons_append, List.append_assoc]


theorem getD_prefix_add {l1 l2 : List Nat} {k : Nat} :
    (l1 ++ l2).getD (l1.length + k) 0 = l2.getD k 0 := by
  rw [List.getD_append_right _ _ _ _ (Nat.le_add_right _ _)]
  simp

theorem getElem?_prefix_add {l1 l2 : List Nat} {k : Nat} :
    (l1 ++ l2)[l1.length + k]? = l2[k]? := by
  rw [List.getElem?_append_right (Nat.le_add_right _ _)]
  simp

theorem parse_frame_eq (f : List Nat) : parse_frame f =
    if f.length < 8 then .error "Frame too short"
    else if f.length < tlvEnd f + 3 then .error "Frame length mismatch"
    else if u16be (f.getD (tlvEnd f) 0) (f.getD (tlvEnd f + 1) 0)
        ≠ crc16 ((f.drop 2).take (tlvEnd f - 2)) then .error "CRC mismatch"
    else if f.getD (tlvEnd f + 2) 0 ≠ 0x55 then .error "Missing EOF byte"
    else .ok (tlvWalk f (tlvEnd f) (tlvEnd f) 3 ESP32Data.default) := rfl

theorem parse_frame_mkFrame (ver : Nat) (ts : List (Nat × List Nat))
    (hne : ts ≠ []) (hlen : (encodeTlvs ts).length ≤ 254) :
    parse_frame (mkFrame ver ts) =
      .ok (tlvWalk (mkFrame ver ts) ((encodeTlvs ts).length + 3)
        ((encodeTlvs ts).length + 3) 3 ESP32Data.default) := by
  have hL2 : 2 ≤ (encodeTlvs ts).length := by
    have h1 := encodeTlvs_two_mul_le ts
    have h2 : 0 < ts.length := List.length_pos.mpr hne
    omega
  have hframe := mkFrame_eq ver ts
  have hlen6 : (mkFrame ver ts).length = (encodeTlvs ts).length + 6 := by
    rw [hframe]
    simp
  have hgd1 : (mkFrame ver ts).getD 1 0 = (encodeTlvs ts).length + 1 := by
    rw [hframe]
    simp
  have htlvEnd : tlvEnd (mkFrame ver ts) = (encodeTlvs ts).length + 3 := by
    unfold tlvEnd
    rw [hgd1]
    omega
  have hgd3 : (mkFrame ver ts).getD ((encodeTlvs ts).length + 3) 0
      = crc16 (ver :: encodeTlvs ts) / 256 := by
    rw [hframe,
      show (encodeTlvs ts).length + 3
        = ([0xAA, (encodeTlvs ts).length + 1, ver] ++ encodeTlvs ts).length + 0 by simp,
      getD_prefix_add]
    rfl
  have hgd4 : (mkFrame ver ts).getD ((encodeTlvs ts).length + 3 + 1) 0
      = crc16 (ver :: encodeTlvs ts) % 256 := by
    rw [hframe,
      show (encodeTlvs ts).length + 3 + 1
        = ([0xAA, (encodeTlvs ts).length + 1, ver] ++ encodeTlvs ts).length + 1 by simp,
      getD_prefix_add]
    rfl
  have hgd5 : (mkFrame ver ts).getD ((encodeTlvs ts).length + 3 + 2) 0 = 0x55 := by
    rw [hframe,
      show (encodeTlvs ts).length + 3 + 2
        = ([0xAA, (encodeTlvs ts).length + 1, ver] ++ encodeTlvs ts).length + 2 by simp,
      getD_prefix_add]
    rfl
  have hTake : ((mkFrame ver ts).drop 2).take ((encodeTlvs ts).length + 3 - 2)
      = ver :: encodeTlvs ts := by
    rw [hframe]
    simp only [List.cons_append, List.nil_append]
    show (ver :: (encodeTlvs ts ++ [crc16 (ver :: encodeTlvs ts) / 256,
      crc16 (ver :: encodeTlvs ts) % 256, 0x55])).take ((encodeTlvs ts).length + 3 - 2)
      = ver :: encodeTlvs ts
    rw [show (encodeTlvs ts).length + 3 - 2 = (encodeTlvs ts).length + 1 by omega,
      List.take_succ_cons, List.take_left' rfl]
  have hrecv : u16be (crc16 (ver :: encodeTlvs ts) / 256) (crc16 (ver :: encodeTlvs ts) % 256)
      = crc16 (ver :: encodeTlvs ts) := by
    unfold u16be
    omega
  rw [parse_frame_eq]
  rw [hlen6, htlvEnd, hTake, hgd3, hgd4, hgd5, hrecv]
  rw [if_neg (show ¬((encodeTlvs ts).length + 6 < 8) by omega)]
  rw [if_neg (show ¬((encodeTlvs ts).length + 6 < (encodeTlvs ts).length + 3 + 3) by omega)]
  rw [if_neg (show ¬(crc16 (ver :: encodeTlvs ts) ≠ crc16 (ver :: encodeTlvs ts))
    from fun h => h rfl)]
  rw [if_neg (show ¬((0x55 : Nat) ≠ 0x55) from fun h => h rfl)]

/-- C1: for every well-formed candidate frame buffer (start sentinel,
LENGTH byte counting VERSION plus all TLV bytes, matching CRC16, end
sentinel right after the CRC; a framing-loop candidate holds at least
one TLV), `parse_frame` succeeds, and exactly the fields whose tags
occur in the TLV region are set: tags 0x01-0x0A map to the scalar
fields, 0x0B-0x0E and 0x0F-0x12 index the tyre arrays, unknown tags are
skipped by their declared length, and every field whose tag is absent
stays unset. -/
theorem parse_frame_exactly_tagged (ver : Nat) (ts : List (Nat × List Nat))
    (hver : ver < 256)
    (hbytes : ∀ t ∈ ts, t.1 < 256 ∧ t.2.length < 256 ∧ ∀ b ∈ t.2, b < 256)
    (hne : ts ≠ []) (hlen : (encodeTlvs ts).length ≤ 254) :
    ∃ d, parse_frame (mkFrame ver ts) = .ok d ∧ exactlyTagged (ts.map Prod.fst) d := by
  refine ⟨_, parse_frame_mkFrame ver ts hne hlen, ?_⟩
  apply exactlyTagged_of_tagsChar
  have hcov : ∀ j, j < (encodeTlvs ts).length →
      (mkFrame ver ts)[3 + j]? = (encodeTlvs ts)[j]? := by
    intro j hj
    rw [mkFrame_eq, List.append_assoc,
      show (3 : Nat) + j = ([0xAA, (encodeTlvs ts).length + 1, ver] : List Nat).length + j
        by simp,
      getElem?_prefix_add, List.getElem?_append_left hj]
  have hfuel : ts.length ≤ (encodeTlvs ts).length + 3 := by
    have h2 := encodeTlvs_two_mul_le ts
    omega
  have hchar := tlvWalk_char ts (mkFrame ver ts) 3 ((encodeTlvs ts).length + 3)
    ESP32Data.default hcov hfuel
  rw [show (3 : Nat) + (encodeTlvs ts).length = (encodeTlvs ts).length + 3
    from Nat.add_comm _ _] at hchar
  exact hchar

/-- Witness for C1 at a concrete two-TLV frame. -/
theorem parse_frame_exactly_tagged_witness :
    ∃ d, parse_frame (mkFrame 1 [(1, [0, 1]), (12, [2, 3])]) = .ok d
      ∧ exactlyTagged [1, 12] d := by
  have h := parse_frame_exactly_tagged 1 [(1, [0, 1]), (12, [2, 3])]
    (by norm_num) (by decide) (by decide) (by decide)
  simpa using h

/-! ## Single-byte corruption of the CRC-covered region -/

theorem getD_drop (l : List Nat) (n k : Nat) (h : n ≤ l.length) :
    (l.drop n).getD k 0 = l.getD (n + k) 0 := by
  conv_rhs => rw [← List.take_append_drop n l]
  rw [List.getD_append_right _ _ _ _ (by simp [List.length_take])]
  congr 1
  simp [List.length_take]
  omega

theorem getD_take (l : List Nat) (n k : Nat) (h : k < n) :
    (l.take n).getD k 0 = l.getD k 0 := by
  simp [List.getD_eq_getElem?_getD, List.getElem?_take_of_lt h]

theorem set_decomp : ∀ (l : List Nat) (j b' : Nat), j < l.length →
    ∃ p s, l = p ++ l.getD j 0 :: s ∧ l.set j b' = p ++ b' :: s
  | [], j, b', h => absurd h (by simp)
  | x :: t, 0, b', _ => ⟨[], t, by simp, by simp⟩
  | x :: t, j + 1, b', h => by
    obtain ⟨p, s, h1, h2⟩ := set_decomp t j b' (by simp at h; omega)
    refine ⟨x :: p, s, ?_, ?_⟩
    · show x :: t = (x :: p) ++ (x :: t).getD (j + 1) 0 :: s
      rw [List.getD_cons_succ, List.cons_append]
      exact congrArg (x :: ·) h1
    · show (x :: t).set (j + 1) b' = (x :: p) ++ b' :: s
      rw [List.set_cons_succ, List.cons_append]
      exact congrArg (x :: ·) h2

/-- C2: for every frame that `parse_frame` accepts, changing any single
byte of the CRC-covered region (the VERSION byte and the TLV bytes,
indices 2 up to `tlv_end`) to any different byte value makes
`parse_frame` reject the frame with a CRC mismatch. -/
theorem parse_frame_corrupt_crc (f : List Nat) (i b' : Nat) (d : ESP32Data)
    (hok : parse_frame f = .ok d)
    (hbytes : ∀ x ∈ f, x < 256)
    (hi2 : 2 ≤ i) (hiend : i < tlvEnd f)
    (hb' : b' < 256) (hne : b' ≠ f.getD i 0) :
    parse_frame (f.set i b') = .error "CRC mismatch" := by
  rw [parse_frame_eq] at hok
  have h8 : ¬ f.length < 8 := by
    intro h
    rw [if_pos h] at hok
    exact absurd hok (by simp)
  rw [if_neg h8] at hok
  have hlen : ¬ f.length < tlvEnd f + 3 := by
    intro h
    rw [if_pos h] at hok
    exact absurd hok (by simp)
  rw [if_neg hlen] at hok
  have hcrc : u16be (f.getD (tlvEnd f) 0) (f.getD (tlvEnd f + 1) 0)
      = crc16 ((f.drop 2).take (tlvEnd f - 2)) := by
    by_contra hc
    rw [if_pos hc] at hok
    exact absurd hok (by simp)
  have hflen : tlvEnd f + 3 ≤ f.length := by omega
  have hgd1 : (f.set i b').getD 1 0 = f.getD 1 0 := by
    simp [List.getD_eq_getElem?_getD, List.getElem?_set_ne (show i ≠ 1 by omega)]
  have htlv' : tlvEnd (f.set i b') = tlvEnd f := by
    unfold tlvEnd
    rw [hgd1]
  have hgdT : (f.set i b').getD (tlvEnd f) 0 = f.getD (tlvEnd f) 0 := by
    simp [List.getD_eq_getElem?_getD, List.getElem?_set_ne (show i ≠ tlvEnd f by omega)]
  have hgdT1 : (f.set i b').getD (tlvEnd f + 1) 0 = f.getD (tlvEnd f + 1) 0 := by
    simp [List.getD_eq_getElem?_getD, List.getElem?_set_ne (show i ≠ tlvEnd f + 1 by omega)]
  have hreg : ((f.set i b').drop 2).take (tlvEnd f - 2)
      = ((f.drop 2).take (tlvEnd f - 2)).set (i - 2) b' := by
    rw [List.drop_set, if_neg (show ¬ i < 2 by omega), List.set_take]
  have hreglen : i - 2 < ((f.drop 2).take (tlvEnd f - 2)).length := by
    simp [List.length_take, List.length_drop]
    omega
  have hregD : ((f.drop 2).take (tlvEnd f - 2)).getD (i - 2) 0 = f.getD i 0 := by
    rw [getD_take _ _ _ (by omega), getD_drop _ _ _ (by omega),
      show 2 + (i - 2) = i by omega]
  obtain ⟨p, s, hdec1, hdec2⟩ := set_decomp ((f.drop 2).take (tlvEnd f - 2)) (i - 2) b' hreglen
  rw [hregD] at hdec1
  have hsub : ∀ x ∈ (f.drop 2).take (tlvEnd f - 2), x < 256 := by
    intro x hx
    exact hbytes x ((List.drop_sublist 2 f).subset ((List.take_sublist _ _).subset hx))
  have hs : ∀ x ∈ s, x < 256 := by
    intro x hx
    exact hsub x (by rw [hdec1]; simp [hx])
  have hx256 : f.getD i 0 < 256 := hsub _ (by rw [hdec1]; simp)
  have hcrcne : crc16 ((f.drop 2).take (tlvEnd f - 2))
      ≠ crc16 (((f.drop 2).take (tlvEnd f - 2)).set (i - 2) b') := by
    rw [hdec2, hdec1]
    exact crc16_change hs hx256 hb' (fun he => hne he.symm)
  rw [parse_frame_eq, List.length_set]
  rw [htlv', hgdT, hgdT1, hreg]
  rw [if_neg h8, if_neg hlen]
  rw [if_pos (show u16be (f.getD (tlvEnd f) 0) (f.getD (tlvEnd f + 1) 0)
      ≠ crc16 (((f.drop 2).take (tlvEnd f - 2)).set (i - 2) b')
    by rw [hcrc]; exact hcrcne)]

/-- Witness for C2: flipping the tag byte of a concrete accepted frame
is rejected with a CRC mismatch. -/
theorem parse_frame_corrupt_crc_witness :
    parse_frame ((mkFrame 0 [(255, [0])]).set 3 0) = .error "CRC mismatch" := by
  exact parse_frame_corrupt_crc (mkFrame 0 [(255, [0])]) 3 0 _
    (parse_frame_mkFrame 0 [(255, [0])] (by decide) (by decide))
    (by decide) (by decide) (by decide) (by decide) (by decide)

/-! ## Length handling: trailing bytes and the LEN = 0 wrap -/

/-- C3 counterexample: a buffer holding a valid frame plus one extra
trailing byte has a total byte count inconsistent with its LENGTH byte,
yet `parse_frame` accepts it instead of rejecting it with a length
mismatch: the length check only rejects buffers that are too short. -/
theorem parse_frame_extra_byte_accepted :
    ∃ d, parse_frame (mkFrame 0 [(255, [0])] ++ [0]) = .ok d := ⟨_, rfl⟩

/-- C3 amended: for frames of length at least 8 whose LENGTH byte is
nonzero, `parse_frame` reports the length mismatch exactly when the
buffer holds fewer than LENGTH + 5 bytes (start, LENGTH byte, LENGTH
payload bytes, two CRC bytes, end sentinel); buffers with extra bytes
beyond the declared end pass the check. -/
theorem parse_frame_length_mismatch_iff (f : List Nat) (h8 : 8 ≤ f.length)
    (hL1 : 1 ≤ f.getD 1 0) (hLb : f.getD 1 0 ≤ 255) :
    parse_frame f = .error "Frame length mismatch" ↔ f.length < f.getD 1 0 + 5 := by
  have htlv : tlvEnd f = f.getD 1 0 + 2 := by
    unfold tlvEnd
    omega
  rw [parse_frame_eq, htlv]
  rw [if_neg (show ¬ f.length < 8 by omega)]
  by_cases h : f.length < f.getD 1 0 + 2 + 3
  · rw [if_pos h]
    constructor
    · intro _
      omega
    · intro _
      rfl
  · rw [if_neg h]
    constructor
    · intro hcontra
      split_ifs at hcontra
      all_goals exact absurd (Except.error.inj hcontra) (by decide)
    · intro hcontra
      exact absurd hcontra (by omega)

/-- Witness for the amended C3: an 8-byte buffer whose LENGTH byte
declares a 4-byte payload is one byte short, so the length-mismatch
error fires. -/
theorem parse_frame_length_mismatch_iff_witness :
    parse_frame [0xAA, 4, 0, 0, 0, 0, 0, 0x55] = .error "Frame length mismatch" :=
  (parse_frame_length_mismatch_iff [0xAA, 4, 0, 0, 0, 0, 0, 0x55]
    (by decide) (by decide) (by decide)).mpr (by decide)

/-- C10 counterexample: a frame of length 8 with LENGTH byte 0 is
accepted as an all-fields-unset sample; the wrapped index arithmetic
does not make the length-mismatch check fire, and no decode error is
returned. -/
theorem parse_frame_len_zero_accepted :
    parse_frame [0xAA, 0, 0, 0, 0x55, 0, 0, 0] = .ok ESP32Data.default := rfl

/-- C10 amended: for every frame of length at least 8 whose LENGTH byte
is 0, the wrapping subtraction leaves `tlv_end = 2`, so the
length-mismatch check passes; the frame then decodes (to the all-unset
sample) exactly when bytes 2 and 3 are zero, matching the CRC of the
now-empty covered region, and byte 4 is the end sentinel; every other
such frame is rejected with a decode error. -/
theorem parse_frame_len_zero (f : List Nat) (h8 : 8 ≤ f.length) (hL : f.getD 1 0 = 0) :
    tlvEnd f = 2
    ∧ (parse_frame f = .ok ESP32Data.default ↔
        f.getD 2 0 = 0 ∧ f.getD 3 0 = 0 ∧ f.getD 4 0 = 0x55)
    ∧ (¬ (f.getD 2 0 = 0 ∧ f.getD 3 0 = 0 ∧ f.getD 4 0 = 0x55) →
        ∃ e, parse_frame f = .error e) := by
  have htlv : tlvEnd f = 2 := by
    unfold tlvEnd
    omega
  have hify : parse_frame f =
      (if u16be (f.getD 2 0) (f.getD 3 0) ≠ 0 then Except.error "CRC mismatch"
       else if f.getD 4 0 ≠ 0x55 then Except.error "Missing EOF byte"
       else Except.ok (tlvWalk f 2 2 3 ESP32Data.default)) := by
    rw [parse_frame_eq, htlv]
    rw [if_neg (show ¬ f.length < 8 by omega)]
    rw [if_neg (show ¬ f.length < 2 + 3 by omega)]
    rw [show ((f.drop 2).take (2 - 2)) = [] by simp]
    rw [show crc16 [] = 0 from rfl]
  have hwalk : tlvWalk f 2 2 3 ESP32Data.default = ESP32Data.default := rfl
  refine ⟨htlv, ?_, ?_⟩
  · rw [hify, hwalk]
    by_cases hc : u16be (f.getD 2 0) (f.getD 3 0) ≠ 0
    · rw [if_pos hc]
      constructor
      · intro hx
        exact absurd hx (by simp)
      · intro hx
        exfalso
        unfold u16be at hc
        omega
    · rw [if_neg hc]
      have hceq : u16be (f.getD 2 0) (f.getD 3 0) = 0 := not_not.mp hc
      unfold u16be at hceq
      by_cases he : f.getD 4 0 ≠ 0x55
      · rw [if_pos he]
        constructor
        · intro hx
          exact absurd hx (by simp)
        · intro hx
          exact absurd hx.2.2 he
      · rw [if_neg he]
        have he' := not_not.mp he
        constructor
        · intro _
          exact ⟨by omega, by omega, he'⟩
        · intro _
          rfl
  · intro hcond
    rw [hify]
    by_cases hc : u16be (f.getD 2 0) (f.getD 3 0) ≠ 0
    · rw [if_pos hc]
      exact ⟨_, rfl⟩
    · rw [if_neg hc]
      have hceq : u16be (f.getD 2 0) (f.getD 3 0) = 0 := not_not.mp hc
      unfold u16be at hceq
      have he : f.getD 4 0 ≠ 0x55 := fun h => hcond ⟨by omega, by omega, h⟩
      rw [if_pos he]
      exact ⟨_, rfl⟩

/-- Witness for the amended C10 at a concrete LEN = 0 frame. -/
theorem parse_frame_len_zero_witness :
    tlvEnd [0xAA, 0, 0, 0, 0x55, 0, 0, 0] = 2
    ∧ (parse_frame [0xAA, 0, 0, 0, 0x55, 0, 0, 0] = .ok ESP32Data.default ↔
        [0xAA, 0, 0, 0, 0x55, 0, 0, 0].getD 2 0 = 0
        ∧ [0xAA, 0, 0, 0, 0x55, 0, 0, 0].getD 3 0 = 0
        ∧ [0xAA, 0, 0, 0, 0x55, 0, 0, 0].getD 4 0 = 0x55)
    ∧ (¬ ([0xAA, 0, 0, 0, 0x55, 0, 0, 0].getD 2 0 = 0
        ∧ [0xAA, 0, 0, 0, 0x55, 0, 0, 0].getD 3 0 = 0
        ∧ [0xAA, 0, 0, 0, 0x55, 0, 0, 0].getD 4 0 = 0x55) →
        ∃ e, parse_frame [0xAA, 0, 0, 0, 0x55, 0, 0, 0] = .error e) :=
  parse_frame_len_zero [0xAA, 0, 0, 0, 0x55, 0, 0, 0] (by decide) (by decide)

/-! ## Framing step (C4) -/

/-- C4: one framing step per received byte: a 0xAA byte always discards
the in-progress frame and restarts with just that byte; a 0x55 byte on
an open frame closes and emits it exactly when the accumulated frame
(including the 0x55) has at least 8 bytes; and a byte arriving with no
frame open is not accumulated -- so frames separated by a premature
0xAA are never concatenated. -/
theorem frameStep_spec (fb : List Nat) (b : Nat) :
    frameStep fb 0xAA = ([0xAA], none)
    ∧ (fb ≠ [] → frameStep fb 0x55 =
        if 8 ≤ fb.length + 1 then ([], some (fb ++ [0x55])) else (fb ++ [0x55], none))
    ∧ (fb = [] → b ≠ 0xAA → frameStep fb b = ([], none)) := by
  refine ⟨?_, ?_, ?_⟩
  · simp [frameStep]
  · intro hne
    simp only [frameStep, if_neg (show ¬ (0x55 : Nat) = 0xAA by decide), if_pos hne,
      List.length_append, List.length_cons, List.length_nil]
    split_ifs with h1 h2 h3 <;> simp_all
  · intro he hb
    simp [frameStep, he, hb]

/-- Witness for C4 at a seven-byte open frame and an idle byte. -/
theorem frameStep_spec_witness :
    frameStep [1, 2, 3, 4, 5, 6, 7] 0xAA = ([0xAA], none)
    ∧ frameStep [1, 2, 3, 4, 5, 6, 7] 0x55 = ([], some [1, 2, 3, 4, 5, 6, 7, 0x55])
    ∧ frameStep [] 7 = ([], none) := by
  refine ⟨(frameStep_spec [1, 2, 3, 4, 5, 6, 7] 7).1, ?_,
    (frameStep_spec [] 7).2.2 rfl (by decide)⟩
  have h2 := (frameStep_spec [1, 2, 3, 4, 5, 6, 7] 7).2.1 (by decide)
  simpa using h2

/-! ## Wireless packet decoding (C5, C6) -/

/-- C5: `parse_packet` returns `none` exactly when the payload is
shorter than 80 bytes or its first four bytes differ from the fixed
preamble 0xB5 0x62 0xFF 0x01; every payload of length at least 80 with
that preamble decodes to a sample -- no further integrity check is
applied. -/
theorem parse_packet_none_iff (d : List Nat) :
    parse_packet d = none ↔
      d.length < 80 ∨ d.getD 0 0 ≠ 0xB5 ∨ d.getD 1 0 ≠ 0x62 ∨ d.getD 2 0 ≠ 0xFF
        ∨ d.getD 3 0 ≠ 0x01 := by
  unfold parse_packet
  split_ifs with h
  · exact iff_of_true rfl h
  · exact iff_of_false (by simp) h

/-- C6: `parse_packet` applies the documented unit conversions to the
little-endian raw fields: degrees = raw / 1e7, altitudes = raw mm /
1000, speed = raw mm/s * 3.6 / 1000, heading = raw / 1e5, g-force =
raw milli-g / 1000, rotation = raw centi-deg/s / 100; in particular a
raw latitude of 481234560 decodes to 48.123456 degrees and a raw speed
of 1000 mm/s to 3.6 km/h. -/
theorem parse_packet_conversions (d : List Nat)
    (hlen : 80 ≤ d.length)
    (h0 : d.getD 0 0 = 0xB5) (h1 : d.getD 1 0 = 0x62)
    (h2 : d.getD 2 0 = 0xFF) (h3 : d.getD 3 0 = 0x01) :
    ∃ r, parse_packet d = some r
      ∧ r.latitude = (toI32 (u32le (d.getD 28 0) (d.getD 29 0) (d.getD 30 0) (d.getD 31 0)) : ℚ) / 10000000
      ∧ r.longitude = (toI32 (u32le (d.getD 24 0) (d.getD 25 0) (d.getD 26 0) (d.getD 27 0)) : ℚ) / 10000000
      ∧ r.wgs_alt = (toI32 (u32le (d.getD 32 0) (d.getD 33 0) (d.getD 34 0) (d.getD 35 0)) : ℚ) / 1000
      ∧ r.msl_alt = (toI32 (u32le (d.getD 36 0) (d.getD 37 0) (d.getD 38 0) (d.getD 39 0)) : ℚ) / 1000
      ∧ r.speed_kph = (toI32 (u32le (d.getD 48 0) (d.getD 49 0) (d.getD 50 0) (d.getD 51 0)) : ℚ) * (36 / 10) / 1000
      ∧ r.heading_deg = (toI32 (u32le (d.getD 52 0) (d.getD 53 0) (d.getD 54 0) (d.getD 55 0)) : ℚ) / 100000
      ∧ r.g_force_x = (toI16 (u16le (d.getD 68 0) (d.getD 69 0)) : ℚ) / 1000
      ∧ r.g_force_y = (toI16 (u16le (d.getD 70 0) (d.getD 71 0)) : ℚ) / 1000
      ∧ r.g_force_z = (toI16 (u16le (d.getD 72 0) (d.getD 73 0)) : ℚ) / 1000
      ∧ r.rot_rate_x = (toI16 (u16le (d.getD 74 0) (d.getD 75 0)) : ℚ) / 100
      ∧ r.rot_rate_y = (toI16 (u16le (d.getD 76 0) (d.getD 77 0)) : ℚ) / 100
      ∧ r.rot_rate_z = (toI16 (u16le (d.getD 78 0) (d.getD 79 0)) : ℚ) / 100
      ∧ (toI32 (u32le (d.getD 28 0) (d.getD 29 0) (d.getD 30 0) (d.getD 31 0)) = 481234560 →
          r.latitude = 48.123456)
      ∧ (toI32 (u32le (d.getD 48 0) (d.getD 49 0) (d.getD 50 0) (d.getD 51 0)) = 1000 →
          r.speed_kph = 3.6) := by
  have hcond : ¬(d.length < 80 ∨ d.getD 0 0 ≠ 0xB5 ∨ d.getD 1 0 ≠ 0x62 ∨ d.getD 2 0 ≠ 0xFF
      ∨ d.getD 3 0 ≠ 0x01) := by
    push_neg
    exact ⟨by omega, h0, h1, h2, h3⟩
  unfold parse_packet
  rw [if_neg hcond]
  refine ⟨_, rfl, rfl, rfl, rfl, rfl, rfl, rfl, rfl, rfl, rfl, rfl, rfl, rfl, ?_, ?_⟩
  · intro hraw
    show (toI32 (u32le (d.getD 28 0) (d.getD 29 0) (d.getD 30 0) (d.getD 31 0)) : ℚ)
      / 10000000 = 48.123456
    rw [hraw]
    norm_num
  · intro hraw
    show (toI32 (u32le (d.getD 48 0) (d.getD 49 0) (d.getD 50 0) (d.getD 51 0)) : ℚ)
      * (36 / 10) / 1000 = 3.6
    rw [hraw]
    norm_num

/-- Witness for C6: a concrete 80-byte payload with raw latitude
481234560 and raw speed 1000 decodes to 48.123456 degrees and
3.6 km/h. -/
theorem parse_packet_conversions_witness :
    ∃ r, parse_packet [181, 98, 255, 1, 0, 0, 0, 0, 0, 0, 0, 0, 0, 0, 0, 0, 0, 0, 0, 0, 0, 0, 0, 0, 0, 0, 0, 0, 128, 14, 175, 28, 0, 0, 0, 0, 0, 0, 0, 0, 0, 0, 0, 0, 0, 0, 0, 0, 232, 3, 0, 0, 0, 0, 0, 0, 0, 0, 0, 0, 0, 0, 0, 0, 0, 0, 0, 0, 0, 0, 0, 0, 0, 0, 0, 0, 0, 0, 0, 0] = some r
      ∧ r.latitude = 48.123456 ∧ r.speed_kph = 3.6 := by
  obtain ⟨r, hr, _, _, _, _, _, _, _, _, _, _, _, _, hlat, hspd⟩ :=
    parse_packet_conversions [181, 98, 255, 1, 0, 0, 0, 0, 0, 0, 0, 0, 0, 0, 0, 0, 0, 0, 0, 0, 0, 0, 0, 0, 0, 0, 0, 0, 128, 14, 175, 28, 0, 0, 0, 0, 0, 0, 0, 0, 0, 0, 0, 0, 0, 0, 0, 0, 232, 3, 0, 0, 0, 0, 0, 0, 0, 0, 0, 0, 0, 0, 0, 0, 0, 0, 0, 0, 0, 0, 0, 0, 0, 0, 0, 0, 0, 0, 0, 0]
      (by decide) (by decide) (by decide) (by decide) (by decide)
  exact ⟨r, hr, hlat (by decide), hspd (by decide)⟩

/-! ## Link manager control flow (C7, C8) -/

/-- C7 counterexample: a failure at the manager-creation stage is
reported to the error callback and then terminates the listener task
with an early return -- it does not loop back to scanning. -/
theorem bleRun_manager_failure_terminates :
    bleRun { managerOk := false, adaptersOk := true, adapterCount := 1,
             scan := ScanStart.ok, peripherals := fun _ => some [] } 5
      = (.earlyReturn .managerCreation, [.managerCreation]) := rfl

/-- C7 amended: failures at manager creation, adapter lookup, adapter
selection or scan start terminate the listener task after being
reported; once those initial stages have succeeded (or the scan start
failed as already-in-progress), no failure inside the scan loop
(peripheral enumeration, connect, service discovery, UART service or
TX characteristic lookup, subscribe, notification setup) ever makes the
task return early -- each is reported and the loop goes back to
scanning. -/
theorem bleRun_no_early_return (env : BleEnv) (fuel : Nat)
    (hm : env.managerOk = true) (ha : env.adaptersOk = true) (hc : 0 < env.adapterCount)
    (hs : env.scan ≠ .err) (e : BleError) :
    (bleRun env fuel).1 ≠ .earlyReturn e := by
  have hloop : ∀ fuel n errs, (bleScanLoop env fuel n errs).1 ≠ .earlyReturn e := by
    intro fuel
    induction fuel with
    | zero =>
      intro n errs
      simp [bleScanLoop]
    | succ f ih =>
      intro n errs
      rw [bleScanLoop]
      split
      · exact ih (n + 1) (errs ++ [.peripheralDiscovery])
      · split
        · simp
        · exact ih (n + 1) _
  unfold bleRun
  rw [hm, ha]
  rw [if_neg (by simp), if_neg (by simp), if_neg (by omega)]
  cases hsc : env.scan with
  | err => exact absurd hsc hs
  | ok => exact hloop fuel 0 []
  | errInProgress => exact hloop fuel 0 []

/-- Witness for the amended C7: with the initial stages succeeding and
a visible matching peripheral whose connect fails, the run does not
return early. -/
theorem bleRun_no_early_return_witness :
    (bleRun { managerOk := true, adaptersOk := true, adapterCount := 1,
              scan := ScanStart.ok,
              peripherals := fun _ => some [{ name := some "RaceBox Micro 1",
                                              connectOk := false, discoverOk := false,
                                              hasUart := false, hasTx := false,
                                              subscribeOk := false,
                                              notifyOk := false }] } 3).1
      ≠ .earlyReturn .connection :=
  bleRun_no_early_return _ 3 rfl rfl (by decide)
    (fun h => ScanStart.noConfusion h) .connection

/-- C8 counterexample: an I/O error followed by a failed device reopen
makes the serial loop return with an error (`start_listener`
propagates the reopen failure through `?`): the retry is not
indefinite. -/
theorem serialLoop_reopen_failure_returns :
    serialLoop { read := fun _ => .fail, reopen := fun _ => false } 1 0 0 [] =
      .returnedErr := rfl

/-- C8 amended: on every I/O error the loop sleeps and reopens the
device, and this recovery repeats indefinitely as long as each reopen
succeeds; only a failed reopen makes `start_listener` return with an
error. -/
theorem serialLoop_no_return_of_reopen_ok (env : SerialEnv)
    (h : ∀ n, env.reopen n = true) :
    ∀ fuel r ro fb, serialLoop env fuel r ro fb ≠ .returnedErr := by
  intro fuel
  induction fuel with
  | zero =>
    intro r ro fb
    simp [serialLoop]
  | succ f ih =>
    intro r ro fb
    rw [serialLoop]
    split
    · exact ih _ _ _
    · rw [h ro, if_pos rfl]
      exact ih _ _ _

/-- Witness for the amended C8: with reopen always succeeding the loop
keeps running through repeated read errors. -/
theorem serialLoop_no_return_of_reopen_ok_witness :
    serialLoop { read := fun _ => .fail, reopen := fun _ => true } 3 0 0 [] ≠
      .returnedErr :=
  serialLoop_no_return_of_reopen_ok _ (fun _ => rfl) 3 0 0 []

/-! ## Local command surface (C9) -/

theorem err_split_mode (b : String) :
    "ERR invalid mode: " ++ b ++ "\n" = "ERR" ++ (" invalid mode: " ++ b ++ "\n") := by
  rw [show ("ERR invalid mode: " : String) = "ERR" ++ " invalid mode: " from rfl,
    String.append_assoc "ERR" " invalid mode: " b,
    String.append_assoc "ERR" (" invalid mode: " ++ b) "\n"]

theorem err_split_scheme (b : String) :
    "ERR invalid scheme: " ++ b ++ "\n" = "ERR" ++ (" invalid scheme: " ++ b ++ "\n") := by
  rw [show ("ERR invalid scheme: " : String) = "ERR" ++ " invalid scheme: " from rfl,
    String.append_assoc "ERR" " invalid scheme: " b,
    String.append_assoc "ERR" (" invalid scheme: " ++ b) "\n"]

theorem err_ne_ok_mode (b : String) : "ERR invalid mode: " ++ b ++ "\n" ≠ "OK\n" := by
  intro h
  have hl := congrArg String.length h
  rw [String.length_append, String.length_append,
    show ("ERR invalid mode: " : String).length = 18 from rfl,
    show ("\n" : String).length = 1 from rfl,
    show ("OK\n" : String).length = 3 from rfl] at hl
  omega

theorem err_ne_ok_scheme (b : String) : "ERR invalid scheme: " ++ b ++ "\n" ≠ "OK\n" := by
  intro h
  have hl := congrArg String.length h
  rw [String.length_append, String.length_append,
    show ("ERR invalid scheme: " : String).length = 20 from rfl,
    show ("\n" : String).length = 1 from rfl,
    show ("OK\n" : String).length = 3 from rfl] at hl
  omega

theorem handleTokens_spec (tokens : List String) (s : TelemetryState) :
    ((handleTokens tokens s).1 = "OK\n" ↔
      tokens ∈ [["set_mode", "Road"], ["set_mode", "Track"],
        ["set_scheme", "Light"], ["set_scheme", "Dark"]])
    ∧ (tokens = ["set_mode", "Road"] → (handleTokens tokens s).2 = s.set_drive_mode .Road)
    ∧ (tokens = ["set_mode", "Track"] → (handleTokens tokens s).2 = s.set_drive_mode .Track)
    ∧ (tokens = ["set_scheme", "Light"] → (handleTokens tokens s).2 = s.set_color_scheme .Light)
    ∧ (tokens = ["set_scheme", "Dark"] → (handleTokens tokens s).2 = s.set_color_scheme .Dark)
    ∧ ((handleTokens tokens s).1 ≠ "OK\n" →
        (∃ rest, (handleTokens tokens s).1 = "ERR" ++ rest)
        ∧ (handleTokens tokens s).2.drive_mode = s.drive_mode
        ∧ (handleTokens tokens s).2.color_scheme = s.color_scheme) := by
  rcases tokens with _ | ⟨a, _ | ⟨b, _ | ⟨c, tl⟩⟩⟩
  · have hred : handleTokens [] s = ("ERR unknown command\n", s) := by
      simp [handleTokens]
    rw [hred]
    exact ⟨iff_of_false (fun hc => (by decide : ("ERR unknown command\n" : String) ≠ "OK\n") hc)
        (by simp),
      fun h => by simp at h, fun h => by simp at h, fun h => by simp at h,
      fun h => by simp at h,
      fun _ => ⟨⟨" unknown command\n", rfl⟩, rfl, rfl⟩⟩
  · have hred : handleTokens [a] s = ("ERR unknown command\n", s) := by
      simp [handleTokens]
    rw [hred]
    exact ⟨iff_of_false (fun hc => (by decide : ("ERR unknown command\n" : String) ≠ "OK\n") hc)
        (by simp),
      fun h => by simp at h, fun h => by simp at h, fun h => by simp at h,
      fun h => by simp at h,
      fun _ => ⟨⟨" unknown command\n", rfl⟩, rfl, rfl⟩⟩
  · by_cases hmode : a = "set_mode"
    · subst hmode
      by_cases hb1 : b = "Road"
      · subst hb1
        have hred : handleTokens ["set_mode", "Road"] s = ("OK\n", s.set_drive_mode .Road) := by
          simp [handleTokens]
        rw [hred]
        exact ⟨iff_of_true rfl (by decide), fun _ => rfl,
          fun h => absurd h (by decide), fun h => absurd h (by decide),
          fun h => absurd h (by decide), fun hne => absurd rfl hne⟩
      · by_cases hb2 : b = "Track"
        · subst hb2
          have hred : handleTokens ["set_mode", "Track"] s
              = ("OK\n", s.set_drive_mode .Track) := by
            simp [handleTokens, hb1]
          rw [hred]
          exact ⟨iff_of_true rfl (by decide), fun h => absurd h (by decide), fun _ => rfl,
            fun h => absurd h (by decide), fun h => absurd h (by decide),
            fun hne => absurd rfl hne⟩
        · have hred : handleTokens ["set_mode", b] s
              = ("ERR invalid mode: " ++ b ++ "\n", s) := by
            simp [handleTokens, hb1, hb2]
          rw [hred]
          refine ⟨iff_of_false (err_ne_ok_mode b) ?_, ?_, ?_, ?_, ?_, ?_⟩
          · intro hmem
            simp only [List.mem_cons, List.not_mem_nil, or_false] at hmem
            rcases hmem with h | h | h | h
            · injection h with _ h2
              injection h2 with h2 _
              exact hb1 h2
            · injection h with _ h2
              injection h2 with h2 _
              exact hb2 h2
            · injection h with h1 _
              exact absurd h1 (by decide)
            · injection h with h1 _
              exact absurd h1 (by decide)
          · intro h
            injection h with _ h2
            injection h2 with h2 _
            exact absurd h2 hb1
          · intro h
            injection h with _ h2
            injection h2 with h2 _
            exact absurd h2 hb2
          · intro h
            injection h with h1 _
            exact absurd h1 (by decide)
          · intro h
            injection h with h1 _
            exact absurd h1 (by decide)
          · intro _
            exact ⟨⟨" invalid mode: " ++ b ++ "\n", err_split_mode b⟩, rfl, rfl⟩
    · by_cases hscheme : a = "set_scheme"
      · subst hscheme
        by_cases hb1 : b = "Light"
        · subst hb1
          have hred : handleTokens ["set_scheme", "Light"] s
              = ("OK\n", s.set_color_scheme .Light) := by
            simp [handleTokens]
          rw [hred]
          exact ⟨iff_of_true rfl (by decide), fun h => absurd h (by decide),
            fun h => absurd h (by decide), fun _ => rfl, fun h => absurd h (by decide),
            fun hne => absurd rfl hne⟩
        · by_cases hb2 : b = "Dark"
          · subst hb2
            have hred : handleTokens ["set_scheme", "Dark"] s
                = ("OK\n", s.set_color_scheme .Dark) := by
              simp [handleTokens, hb1]
            rw [hred]
            exact ⟨iff_of_true rfl (by decide), fun h => absurd h (by decide),
              fun h => absurd h (by decide), fun h => absurd h (by decide), fun _ => rfl,
              fun hne => absurd rfl hne⟩
          · have hred : handleTokens ["set_scheme", b] s
                = ("ERR invalid scheme: " ++ b ++ "\n", s) := by
              simp [handleTokens, hb1, hb2]
            rw [hred]
            refine ⟨iff_of_false (err_ne_ok_scheme b) ?_, ?_, ?_, ?_, ?_, ?_⟩
            · intro hmem
              simp only [List.mem_cons, List.not_mem_nil, or_false] at hmem
              rcases hmem with h | h | h | h
              · injection h with h1 _
                exact absurd h1 (by decide)
              · injection h with h1 _
                exact absurd h1 (by decide)
              · injection h with _ h2
                injection h2 with h2 _
                exact hb1 h2
              · injection h with _ h2
                injection h2 with h2 _
                exact hb2 h2
            · intro h
              injection h with h1 _
              exact absurd h1 (by decide)
            · intro h
              injection h with h1 _
              exact absurd h1 (by decide)
            · intro h
              injection h with _ h2
              injection h2 with h2 _
              exact absurd h2 hb1
            · intro h
              injection h with _ h2
              injection h2 with h2 _
              exact absurd h2 hb2
            · intro _
              exact ⟨⟨" invalid scheme: " ++ b ++ "\n", err_split_scheme b⟩, rfl, rfl⟩
      · have hred : handleTokens [a, b] s = ("ERR unknown command\n", s) := by
          simp [handleTokens, hmode, hscheme]
        rw [hred]
        refine ⟨iff_of_false
          (fun hc => (by decide : ("ERR unknown command\n" : String) ≠ "OK\n") hc) ?_,
          ?_, ?_, ?_, ?_, ?_⟩
        · intro hmem
          simp only [List.mem_cons, List.not_mem_nil, or_false] at hmem
          rcases hmem with h | h | h | h
          · injection h with h1 _
            exact hmode h1
          · injection h with h1 _
            exact hmode h1
          · injection h with h1 _
            exact hscheme h1
          · injection h with h1 _
            exact hscheme h1
        · intro h
          injection h with h1 _
          exact absurd h1 hmode
        · intro h
          injection h with h1 _
          exact absurd h1 hmode
        · intro h
          injection h with h1 _
          exact absurd h1 hscheme
        · intro h
          injection h with h1 _
          exact absurd h1 hscheme
        · intro _
          exact ⟨⟨" unknown command\n", rfl⟩, rfl, rfl⟩
  · have hred : handleTokens (a :: b :: c :: tl) s = ("ERR unknown command\n", s) := by
      simp [handleTokens]
    rw [hred]
    exact ⟨iff_of_false (fun hc => (by decide : ("ERR unknown command\n" : String) ≠ "OK\n") hc)
        (by simp),
      fun h => by simp at h, fun h => by simp at h, fun h => by simp at h,
      fun h => by simp at h,
      fun _ => ⟨⟨" unknown command\n", rfl⟩, rfl, rfl⟩⟩

/-- C9: a request line is answered `OK` exactly when it consists of the
two whitespace-separated tokens `set_mode Road`, `set_mode Track`,
`set_scheme Light` or `set_scheme Dark`, in which case the matching
selector is set; every other line is answered with a reply beginning
with `ERR` and leaves both the drive-mode and color-scheme selectors
unchanged. -/
theorem handleCommand_spec (line : String) (s : TelemetryState) :
    ((handleCommand line s).1 = "OK\n" ↔
      tokenize line ∈ [["set_mode", "Road"], ["set_mode", "Track"],
        ["set_scheme", "Light"], ["set_scheme", "Dark"]])
    ∧ (tokenize line = ["set_mode", "Road"] →
        (handleCommand line s).2 = s.set_drive_mode .Road)
    ∧ (tokenize line = ["set_mode", "Track"] →
        (handleCommand line s).2 = s.set_drive_mode .Track)
    ∧ (tokenize line = ["set_scheme", "Light"] →
        (handleCommand line s).2 = s.set_color_scheme .Light)
    ∧ (tokenize line = ["set_scheme", "Dark"] →
        (handleCommand line s).2 = s.set_color_scheme .Dark)
    ∧ ((handleCommand line s).1 ≠ "OK\n" →
        (∃ rest, (handleCommand line s).1 = "ERR" ++ rest)
        ∧ (handleCommand line s).2.drive_mode = s.drive_mode
        ∧ (handleCommand line s).2.color_scheme = s.color_scheme) :=
  handleTokens_spec (tokenize line) s

/-- Witness for C9: `set_mode Track` is tokenized to two tokens, is
answered `OK`, and sets the drive mode. -/
theorem handleCommand_spec_witness :
    (handleCommand "set_mode Track"
      { latest_racebox_data := none, latest_esp32_data := ESP32Data.default,
        racebox_error := none, esp32_error := none, drive_mode := .Road,
        color_scheme := .Light }).1 = "OK\n"
    ∧ (handleCommand "set_mode Track"
      { latest_racebox_data := none, latest_esp32_data := ESP32Data.default,
        racebox_error := none, esp32_error := none, drive_mode := .Road,
        color_scheme := .Light }).2.drive_mode = .Track := by
  have h := handleCommand_spec "set_mode Track"
    { latest_racebox_data := none, latest_esp32_data := ESP32Data.default,
      racebox_error := none, esp32_error := none, drive_mode := .Road,
      color_scheme := .Light }
  refine ⟨h.1.mpr ?_, ?_⟩
  · rw [show tokenize "set_mode Track" = ["set_mode", "Track"] from rfl]
    decide
  · have h2 := h.2.2.1 (show tokenize "set_mode Track" = ["set_mode", "Track"] from rfl)
    rw [h2]
    rfl
